import Mathlib

/-!
Verification of the campus greenhouse-gas accounting application
(`carbon_app.py`).  The session data model, the emission calculation
engine (`calculate_totals`), the spreadsheet export (`to_excel`), and the
session-state initialization (`get_ar_initial_data`, `initialize_state`)
are embedded as executable Lean definitions; numeric values use `ℚ`,
matching the exact decimal arithmetic of the source formulas.
-/

/-- Association-list lookup, the model of a Python dict indexing `d[k]`
(with `none` standing for a raised `KeyError`). -/
def lookupKey {α : Type} (k : String) : List (String × α) → Option α
  | [] => none
  | kv :: rest => if kv.1 = k then some kv.2 else lookupKey k rest

/-- One stationary-combustion line item (`s1_data`): usage, unit, factor. -/
structure S1Record where
  usage : ℚ
  unit : String
  factor : ℚ
deriving DecidableEq

/-- One mobile-combustion line item (`s2_data`): optional display name,
usage, unit, factor. -/
structure S2Record where
  name : Option String
  usage : ℚ
  unit : String
  factor : ℚ
deriving DecidableEq

/-- One wastewater line item (`s3_data`): head-count and CH4 factor. -/
structure S3Record where
  usage : ℚ
  factor : ℚ
deriving DecidableEq

/-- One fire-suppressant line item (`s4_data`): usage plus an optional GWP
and an optional factor (`None` in the source becomes `none`). -/
structure S4Record where
  usage : ℚ
  gwp : Option ℚ
  factor : Option ℚ
deriving DecidableEq

/-- One refrigerant line item (`s5_data`): usage and GWP. -/
structure S5Record where
  usage : ℚ
  gwp : ℚ
deriving DecidableEq

/-- One commuting line item (`s6_data`): distance and factor. -/
structure S6Record where
  distance : ℚ
  factor : ℚ
deriving DecidableEq

/-- The per-version activity store: exactly the session-state entries read
by `calculate_totals(prefix)` and `to_excel(prefix)` in the source. -/
structure ActivityStore where
  s1_data : List (String × S1Record)
  s2_data : List (String × S2Record)
  s3_septic_system : String
  s3_data : List (String × S3Record)
  s4_data : List (String × S4Record)
  s5_data : List (String × S5Record)
  s6_data : List (String × S6Record)
  s7_electricity : List (String × ℚ)
  s7_water : List (String × ℚ)
  s7_water_source : String
  water_factors : List (String × ℚ)
deriving DecidableEq

/-- CH4 global-warming potential, hardcoded as `gwp_ch4 = 28` in
`calculate_totals` (and inline as `28` in `to_excel`). -/
def gwp_ch4 : ℚ := 28

/-- Electricity emission factor, hardcoded as `0.474` at every use site. -/
def elec_factor : ℚ := 0.474

/-- The selector value meaning a septic tank is in use (wastewater counts). -/
def septicYes : String := "否 (使用化糞池)"

/-- The selector value meaning no septic tank (wastewater skipped). -/
def septicNo : String := "是 (無化糞池逸散)"

/-- Sum of `f` over the values of an association list (a Python
`sum(f(v) for k, v in d.items())`). -/
def sumBy {α : Type} (xs : List (String × α)) (f : α → ℚ) : ℚ :=
  (xs.map (fun kv => f kv.2)).sum

/-- Sum of the values of an association list (`sum(d.values())`). -/
def sumVals (xs : List (String × ℚ)) : ℚ :=
  (xs.map (fun kv => kv.2)).sum

/-- Per-item stationary emission: `v['usage'] * v['factor']`. -/
def s1_item (v : S1Record) : ℚ := v.usage * v.factor

/-- Per-item mobile emission: `v.get('usage', 0) * v.get('factor', 0)`
(both fields are always present in the record type). -/
def s2_item (v : S2Record) : ℚ := v.usage * v.factor

/-- Per-item wastewater emission: `v['usage'] * v['factor'] * gwp_ch4`. -/
def s3_item (v : S3Record) : ℚ := v.usage * v.factor * gwp_ch4

/-- Per-item fire-suppressant emission, the body of the Step-4 loop of
`calculate_totals`: the GWP branch when `gwp` is not `None`, else the
factor branch when `factor` is not `None`, else no contribution. -/
def s4_item (v : S4Record) : ℚ :=
  match v.gwp with
  | some g => v.usage * g / 1000
  | none =>
    match v.factor with
    | some f => v.usage * f
    | none => 0

/-- Per-item refrigerant emission: `(v['usage'] * v['gwp']) / 1000`. -/
def s5_item (v : S5Record) : ℚ := v.usage * v.gwp / 1000

/-- Per-item commuting emission: `(v['distance'] * v['factor']) / 1000`. -/
def s6_item (v : S6Record) : ℚ := v.distance * v.factor / 1000

/-- The eight category subtotals written to `totals_{prefix}`. -/
structure Totals where
  s1 : ℚ
  s2 : ℚ
  s3 : ℚ
  s4 : ℚ
  s5 : ℚ
  s6 : ℚ
  s7_electricity : ℚ
  s7_water : ℚ
deriving DecidableEq

/-- The scope aggregation written to `scope_totals_{prefix}`. -/
structure ScopeTotals where
  scope1 : ℚ
  scope2 : ℚ
  scope3 : ℚ
  grandTotal : ℚ
deriving DecidableEq

/-- The `emission_breakdown_{prefix}` dict of `calculate_totals`. -/
def breakdownOf (t : Totals) : List (String × ℚ) :=
  [("固定源", t.s1), ("移動源", t.s2), ("汙水", t.s3), ("滅火器", t.s4),
   ("冷媒", t.s5), ("員工通勤", t.s6), ("外購電力", t.s7_electricity),
   ("外購水力", t.s7_water)]

/-- The emission calculation engine, `calculate_totals(prefix)` of the
source restricted to its pure computation: reads one `ActivityStore`,
produces the category totals and scope totals.  The water-factor dict
indexing raises `KeyError` in Python when the selected utility is absent,
modelled by `none`; in the source that lookup happens before any
session-state write, so on failure nothing is produced. -/
def calculate_totals (store : ActivityStore) : Option (Totals × ScopeTotals) :=
  match lookupKey store.s7_water_source store.water_factors with
  | none => none
  | some water_factor =>
    let t1 := sumBy store.s1_data s1_item
    let t2 := sumBy store.s2_data s2_item
    let t3 := if store.s3_septic_system = septicYes
              then sumBy store.s3_data s3_item else 0
    let t4 := sumBy store.s4_data s4_item
    let t5 := sumBy store.s5_data s5_item
    let t6 := sumBy store.s6_data s6_item
    let t7e := sumVals store.s7_electricity * elec_factor / 1000
    let t7w := sumVals store.s7_water * water_factor / 1000
    let scope1 := t1 + t2 + t3 + t4 + t5
    let scope2 := t7e
    let scope3 := t6 + t7w
    some (⟨t1, t2, t3, t4, t5, t6, t7e, t7w⟩,
          ⟨scope1, scope2, scope3, scope1 + scope2 + scope3⟩)

/-- Default stationary data (`s1_data` initial dict). -/
def s1Default : List (String × S1Record) :=
  [("燃料油", ⟨100, "公升/年", 0.002567⟩),
   ("天然氣(NG)", ⟨100, "度/年", 0.001881⟩),
   ("液化石油氣(LPG)", ⟨100, "公升/年", 0.001754⟩),
   ("汽油", ⟨100, "公升/年", 0.002271⟩),
   ("柴油", ⟨100, "公升/年", 0.002615⟩),
   ("潤滑油", ⟨100, "公升/年", 0.002956⟩)]

/-- Default mobile data (`s2_data` initial dict). -/
def s2Default : List (String × S2Record) :=
  [("車用汽油", ⟨none, 100, "公升/年", 0.002298⟩),
   ("車用柴油", ⟨none, 100, "公升/年", 0.002722⟩),
   ("煤油", ⟨none, 100, "公升/年", 0.002567⟩),
   ("潤滑油_mobile", ⟨some "潤滑油", 100, "公升/年", 0.002956⟩),
   ("液化石油氣(LPG)_mobile", ⟨some "液化石油氣(LPG)", 100, "公升/年", 0.001803⟩),
   ("液化天然氣(LNG)", ⟨none, 100, "度/年", 0.002241⟩)]

/-- Default wastewater data (`s3_data` initial dict). -/
def s3Default : List (String × S3Record) :=
  [("平日日間使用學生", ⟨100, 0.0021⟩),
   ("平日夜間使用學生", ⟨10, 0.0005⟩),
   ("假日使用學生", ⟨0, 0.0⟩),
   ("住宿人員", ⟨0, 0.0⟩),
   ("平日日間使用員工", ⟨50, 0.0021⟩),
   ("平日夜間使用員工", ⟨5, 0.0005⟩),
   ("假日使用員工", ⟨0, 0.0⟩)]

/-- Default fire-suppressant data (`s4_data` initial dict). -/
def s4Default : List (String × S4Record) :=
  [("二氧化碳滅火器", ⟨1, some 1, none⟩),
   ("FM-200", ⟨1, some 3350, none⟩),
   ("BC型乾粉滅火器", ⟨1, none, some 0.0003⟩),
   ("KBC型乾粉滅火器", ⟨1, none, some 0.0002⟩)]

/-- Default refrigerant data (`s5_data` initial dict). -/
def s5Default : List (String × S5Record) :=
  [("HFC-23/R-23", ⟨0.5, 12400⟩), ("HFC-32/R-32", ⟨0.1, 677⟩),
   ("HFC-41", ⟨0.0, 116⟩), ("HFC-134", ⟨0.0, 1120⟩),
   ("HFC-134a/R-134a", ⟨0.0, 1300⟩), ("HFC-143", ⟨0.0, 328⟩),
   ("HFC-143a/R-143a", ⟨0.0, 4800⟩), ("HFC-152", ⟨0.0, 16⟩),
   ("HFC-152a/R-152a", ⟨0.0, 138⟩), ("R401a", ⟨0.0, 1130⟩),
   ("R401B", ⟨0.0, 1236⟩), ("R404A", ⟨0.5, 3943⟩),
   ("R407A", ⟨0.0, 1923⟩), ("R407B", ⟨0.0, 2547⟩),
   ("R407C", ⟨0.0, 1624⟩), ("R408A", ⟨0.0, 3257⟩),
   ("R410A", ⟨0.0, 1924⟩), ("R413A", ⟨0.0, 1945⟩),
   ("R417A", ⟨0.0, 2127⟩), ("R507A", ⟨0.0, 3985⟩)]

/-- Default commuting data (`s6_data` initial dict). -/
def s6Default : List (String × S6Record) :=
  [("汽車-汽油", ⟨100, 0.104⟩), ("汽車-電動車", ⟨100, 0.04⟩),
   ("機車-一般機車", ⟨100, 0.079⟩), ("機車-電動機車", ⟨100, 0.017⟩),
   ("公車/客運", ⟨100, 0.078⟩), ("捷運", ⟨100, 0.04⟩),
   ("火車", ⟨0, 0.04⟩), ("高鐵", ⟨0, 0.028⟩)]

/-- The 12 canonical month names. -/
def monthNames : List String :=
  ["一月", "二月", "三月", "四月", "五月", "六月",
   "七月", "八月", "九月", "十月", "十一月", "十二月"]

/-- Default monthly electricity usage (10000 each). -/
def s7ElecDefault : List (String × ℚ) := monthNames.map (fun m => (m, 10000))

/-- Default monthly water usage (100 each). -/
def s7WaterDefault : List (String × ℚ) := monthNames.map (fun m => (m, 100))

/-- Default water-utility factor table (`water_factors` initial dict). -/
def waterFactorsDefault : List (String × ℚ) :=
  [("台灣自來水營業事業處", 0.1872), ("臺北自來水營業事業處", 0.0666)]

/-- Default water-utility selection (`s7_water_source` initial value). -/
def waterSourceDefault : String := "台灣自來水營業事業處"

/-- The fully initialized per-version activity store, as produced by
`get_ar_initial_data` on a fresh session (identical for AR5 and AR6). -/
def defaultStore : ActivityStore :=
  { s1_data := s1Default
    s2_data := s2Default
    s3_septic_system := septicYes
    s3_data := s3Default
    s4_data := s4Default
    s5_data := s5Default
    s6_data := s6Default
    s7_electricity := s7ElecDefault
    s7_water := s7WaterDefault
    s7_water_source := waterSourceDefault
    water_factors := waterFactorsDefault }

/-- One row of the stationary sheet (固定源) of the exported workbook. -/
structure Sheet1Row where
  label : String
  usage : ℚ
  unit : String
  factor : ℚ
  emission : ℚ
deriving DecidableEq

/-- One row of the mobile sheet (移動源); the label is the display name
`val.get('name', key)`. -/
structure Sheet2Row where
  label : String
  usage : ℚ
  unit : String
  factor : ℚ
  emission : ℚ
deriving DecidableEq

/-- One row of the wastewater sheet (汙水). -/
structure Sheet3Row where
  label : String
  usage : ℚ
  factor : ℚ
  emission : ℚ
deriving DecidableEq

/-- One row of the fire-suppressant sheet (滅火器). -/
structure Sheet4Row where
  label : String
  usage : ℚ
  gwp : Option ℚ
  factor : Option ℚ
  emission : ℚ
deriving DecidableEq

/-- One row of the refrigerant sheet (冷媒). -/
structure Sheet5Row where
  label : String
  usage : ℚ
  gwp : ℚ
  emission : ℚ
deriving DecidableEq

/-- One row of the commuting sheet (員工通勤). -/
structure Sheet6Row where
  label : String
  distance : ℚ
  factor : ℚ
  emission : ℚ
deriving DecidableEq

/-- One row of the monthly electricity (外購電力) or water (外購水力) sheet. -/
structure MonthRow where
  month : String
  usage : ℚ
  emission : ℚ
deriving DecidableEq

/-- The multi-sheet workbook written by `to_excel`: one sheet per
category, the wastewater sheet present only when the septic selector is
in use, plus the two out-of-band note cells on the water sheet. -/
structure ExcelFile where
  sheet1 : List Sheet1Row
  sheet2 : List Sheet2Row
  sheet3 : Option (List Sheet3Row)
  sheet4 : List Sheet4Row
  sheet5 : List Sheet5Row
  sheet6 : List Sheet6Row
  sheet7_elec : List MonthRow
  sheet8_water : List MonthRow
  water_source_note : String
  water_factor_note : ℚ
deriving DecidableEq

/-- The fire-suppressant emission column of `to_excel`: the column is
initialized to 0, the GWP rows are assigned usage × gwp / 1000, and then
the factor rows are assigned usage × factor — so when both fields are
set, the factor assignment is the one that survives. -/
def s4_export_emission (v : S4Record) : ℚ :=
  match v.factor with
  | some f => v.usage * f
  | none =>
    match v.gwp with
    | some g => v.usage * g / 1000
    | none => 0

/-- The spreadsheet export, `to_excel(prefix)` of the source restricted
to one `ActivityStore`: every emission column is recomputed from the raw
inputs.  The water-factor dict indexing raises `KeyError` in Python when
the selected utility is absent, aborting before the workbook bytes are
produced, modelled by `none`. -/
def to_excel (store : ActivityStore) : Option ExcelFile :=
  match lookupKey store.s7_water_source store.water_factors with
  | none => none
  | some water_factor =>
    some
      { sheet1 := store.s1_data.map (fun kv =>
          ⟨kv.1, kv.2.usage, kv.2.unit, kv.2.factor, kv.2.usage * kv.2.factor⟩)
        sheet2 := store.s2_data.map (fun kv =>
          ⟨kv.2.name.getD kv.1, kv.2.usage, kv.2.unit, kv.2.factor,
           kv.2.usage * kv.2.factor⟩)
        sheet3 := if store.s3_septic_system = septicYes then
            some (store.s3_data.map (fun kv =>
              ⟨kv.1, kv.2.usage, kv.2.factor, kv.2.usage * kv.2.factor * 28⟩))
          else none
        sheet4 := store.s4_data.map (fun kv =>
          ⟨kv.1, kv.2.usage, kv.2.gwp, kv.2.factor, s4_export_emission kv.2⟩)
        sheet5 := store.s5_data.map (fun kv =>
          ⟨kv.1, kv.2.usage, kv.2.gwp, kv.2.usage * kv.2.gwp / 1000⟩)
        sheet6 := store.s6_data.map (fun kv =>
          ⟨kv.1, kv.2.distance, kv.2.factor, kv.2.distance * kv.2.factor / 1000⟩)
        sheet7_elec := store.s7_electricity.map (fun kv =>
          ⟨kv.1, kv.2, kv.2 * 0.474 / 1000⟩)
        sheet8_water := store.s7_water.map (fun kv =>
          ⟨kv.1, kv.2, kv.2 * water_factor / 1000⟩)
        water_source_note := store.s7_water_source
        water_factor_note := water_factor }

/-- Display label of a line item keyed only by its dict key. -/
def dispKey {α : Type} (k : String) (_ : α) : String := k

/-- Display label of a mobile line item: `val.get('name', key)`. -/
def dispS2 (k : String) (v : S2Record) : String := v.name.getD k

/-- Overwrite only the usage field of a stationary record. -/
def updUsageS1 (u : ℚ) (v : S1Record) : S1Record := { v with usage := u }

/-- Overwrite only the usage field of a mobile record. -/
def updUsageS2 (u : ℚ) (v : S2Record) : S2Record := { v with usage := u }

/-- Overwrite only the usage field of a wastewater record. -/
def updUsageS3 (u : ℚ) (v : S3Record) : S3Record := { v with usage := u }

/-- Overwrite only the usage field of a fire-suppressant record. -/
def updUsageS4 (u : ℚ) (v : S4Record) : S4Record := { v with usage := u }

/-- Overwrite only the usage field of a refrigerant record. -/
def updUsageS5 (u : ℚ) (v : S5Record) : S5Record := { v with usage := u }

/-- Overwrite only the distance field of a commuting record. -/
def updDistS6 (u : ℚ) (v : S6Record) : S6Record := { v with distance := u }

/-- Overwrite a monthly usage value. -/
def updVal (u : ℚ) (_ : ℚ) : ℚ := u

/-- Apply one imported row: every record whose key or display label
matches the row label gets its usage/distance field overwritten. -/
def updMatch {α : Type} (disp : String → α → String) (upd : ℚ → α → α)
    (label : String) (u : ℚ) (xs : List (String × α)) : List (String × α) :=
  xs.map (fun kv =>
    if label = kv.1 ∨ label = disp kv.1 kv.2 then (kv.1, upd u kv.2) else kv)

/-- Apply the rows of one imported sheet in order. -/
def updRows {α : Type} (disp : String → α → String) (upd : ℚ → α → α)
    (rows : List (String × ℚ)) (xs : List (String × α)) : List (String × α) :=
  rows.foldl (fun acc r => updMatch disp upd r.1 r.2 acc) xs

/-- Modelled from the spec: the repository ships no import implementation
(`to_excel` has no inverse in the source), so the SpreadsheetCodec import
contract of the spec is embedded here: for each recognized sheet present
in the file, each row whose line-item label matches a key or display name
already present in the store overwrites only that record's usage/distance
field; unknown labels are skipped, no line item is inserted, and
factor/GWP/unit columns are never altered; absence of the wastewater
sheet sets the septic selector to the not-in-use value, presence sets it
to the in-use value. -/
def importExcel (f : ExcelFile) (store : ActivityStore) : ActivityStore :=
  { store with
    s1_data := updRows dispKey updUsageS1
      (f.sheet1.map (fun r => (r.label, r.usage))) store.s1_data
    s2_data := updRows dispS2 updUsageS2
      (f.sheet2.map (fun r => (r.label, r.usage))) store.s2_data
    s3_septic_system := match f.sheet3 with
      | some _ => septicYes
      | none => septicNo
    s3_data := match f.sheet3 with
      | some rows => updRows dispKey updUsageS3
          (rows.map (fun r => (r.label, r.usage))) store.s3_data
      | none => store.s3_data
    s4_data := updRows dispKey updUsageS4
      (f.sheet4.map (fun r => (r.label, r.usage))) store.s4_data
    s5_data := updRows dispKey updUsageS5
      (f.sheet5.map (fun r => (r.label, r.usage))) store.s5_data
    s6_data := updRows dispKey updDistS6
      (f.sheet6.map (fun r => (r.label, r.distance))) store.s6_data
    s7_electricity := updRows dispKey updVal
      (f.sheet7_elec.map (fun r => (r.month, r.usage))) store.s7_electricity
    s7_water := updRows dispKey updVal
      (f.sheet8_water.map (fun r => (r.month, r.usage))) store.s7_water }

/-- Pairwise label-disjointness of an association list: no record's
display label collides with another record's key or display label. -/
def sepChk {α : Type} (disp : String → α → String) : List (String × α) → Bool
  | [] => true
  | x :: xs =>
    (xs.all (fun kv =>
      decide (disp x.1 x.2 ≠ kv.1 ∧ disp x.1 x.2 ≠ disp kv.1 kv.2 ∧
        disp kv.1 kv.2 ≠ x.1 ∧ disp kv.1 kv.2 ≠ disp x.1 x.2))) &&
    sepChk disp xs

/-- The line-item key lists of every category of a store (import must
keep them unchanged: it never inserts or removes line items). -/
def keysOf (s : ActivityStore) :
    List String × List String × List String × List String × List String ×
    List String × List String × List String :=
  (s.s1_data.map Prod.fst, s.s2_data.map Prod.fst, s.s3_data.map Prod.fst,
   s.s4_data.map Prod.fst, s.s5_data.map Prod.fst, s.s6_data.map Prod.fst,
   s.s7_electricity.map Prod.fst, s.s7_water.map Prod.fst)

/-- Every non-usage/distance field of a store: names, units, factors, GWP
values, the factor table and the selected utility (import must keep them
all unchanged). -/
def coeffsOf (s : ActivityStore) :
    List (String × ℚ) × List (Option String × String × ℚ) × List ℚ ×
    List (Option ℚ × Option ℚ) × List ℚ × List ℚ × List (String × ℚ) × String :=
  (s.s1_data.map (fun kv => (kv.2.unit, kv.2.factor)),
   s.s2_data.map (fun kv => (kv.2.name, kv.2.unit, kv.2.factor)),
   s.s3_data.map (fun kv => kv.2.factor),
   s.s4_data.map (fun kv => (kv.2.gwp, kv.2.factor)),
   s.s5_data.map (fun kv => kv.2.gwp),
   s.s6_data.map (fun kv => kv.2.factor),
   s.water_factors, s.s7_water_source)

/-- The emission column of every sheet of an exported workbook, in
category order (the wastewater column is present iff its sheet is). -/
def fileEmissionCols (f : ExcelFile) :
    List ℚ × List ℚ × Option (List ℚ) × List ℚ × List ℚ × List ℚ ×
    List ℚ × List ℚ :=
  (f.sheet1.map (fun r => r.emission), f.sheet2.map (fun r => r.emission),
   f.sheet3.map (fun rows => rows.map (fun r => r.emission)),
   f.sheet4.map (fun r => r.emission), f.sheet5.map (fun r => r.emission),
   f.sheet6.map (fun r => r.emission), f.sheet7_elec.map (fun r => r.emission),
   f.sheet8_water.map (fun r => r.emission))

/-- The per-item emissions of every category as the engine's formulas
compute them (wastewater present iff the septic selector is in use). -/
def engineEmissionCols (store : ActivityStore) (wf : ℚ) :
    List ℚ × List ℚ × Option (List ℚ) × List ℚ × List ℚ × List ℚ ×
    List ℚ × List ℚ :=
  (store.s1_data.map (fun kv => s1_item kv.2),
   store.s2_data.map (fun kv => s2_item kv.2),
   if store.s3_septic_system = septicYes then
     some (store.s3_data.map (fun kv => s3_item kv.2))
   else none,
   store.s4_data.map (fun kv => s4_item kv.2),
   store.s5_data.map (fun kv => s5_item kv.2),
   store.s6_data.map (fun kv => s6_item kv.2),
   store.s7_electricity.map (fun kv => kv.2 * elec_factor / 1000),
   store.s7_water.map (fun kv => kv.2 * wf / 1000))

/-- A workbook with no rows at all (every recognized sheet empty, the
wastewater sheet absent). -/
def emptyFile : ExcelFile := ⟨[], [], none, [], [], [], [], [], "", 0⟩

/-- The two methodology-version page identifiers (`prefix` values). -/
inductive Ver where
  | ar5
  | ar6
deriving DecidableEq

/-- The suffix string used to build this version's session keys. -/
def Ver.str : Ver → String
  | .ar5 => "ar5"
  | .ar6 => "ar6"

/-- The other methodology version. -/
def Ver.other : Ver → Ver
  | .ar5 => .ar6
  | .ar6 => .ar5

/-- A value stored in Streamlit session state: one constructor per shape
of data the application keeps there. -/
inductive SVal where
  | boolV : Bool → SVal
  | intV : ℤ → SVal
  | strV : String → SVal
  | s1m : List (String × S1Record) → SVal
  | s2m : List (String × S2Record) → SVal
  | s3m : List (String × S3Record) → SVal
  | s4m : List (String × S4Record) → SVal
  | s5m : List (String × S5Record) → SVal
  | s6m : List (String × S6Record) → SVal
  | nmap : List (String × ℚ) → SVal
  | totalsV : Totals → SVal
  | scopesV : ScopeTotals → SVal
  | renewV : List (String × ℚ × String) → SVal
  | treesV : List (String × ℚ) → SVal
deriving DecidableEq

/-- The whole `st.session_state`, a string-keyed dictionary. -/
abbrev Session := List (String × SVal)

/-- `key in st.session_state`. -/
def hasKey (k : String) (ss : Session) : Bool :=
  ss.any (fun kv => decide (kv.1 = k))

/-- `st.session_state[key] = value`: replace in place when the key is
present, append otherwise. -/
def setKey (k : String) (v : SVal) (ss : Session) : Session :=
  if hasKey k ss then ss.map (fun kv => if kv.1 = k then (k, v) else kv)
  else ss ++ [(k, v)]

/-- `if key not in st.session_state: st.session_state[key] = default`. -/
def insertIfAbsent (k : String) (v : SVal) (ss : Session) : Session :=
  if hasKey k ss then ss else ss ++ [(k, v)]

/-- Run a sequence of insert-if-absent defaults in order. -/
def initList (kvs : List (String × SVal)) (ss : Session) : Session :=
  kvs.foldl (fun acc kv => insertIfAbsent kv.1 kv.2 acc) ss

/-- The default inventory year: the current year when it lies in the
selectable range `range(year+25, 2019, -1)` (it does from 2020 on),
otherwise the first entry of the range. -/
def invYearDefault (y : ℤ) : ℤ := if 2020 ≤ y then y else y + 25

/-- The ordered key/default list written by `get_ar_initial_data(prefix)`
for one version: identical data for AR5 and AR6, distinct key names. -/
def arDefaults (y : ℤ) (p : Ver) : List (String × SVal) :=
  [("show_dashboard_" ++ p.str, .boolV false),
   ("inventory_year_" ++ p.str, .intV (invYearDefault y)),
   ("s1_data_" ++ p.str, .s1m s1Default),
   ("s2_data_" ++ p.str, .s2m s2Default),
   ("s3_septic_system_" ++ p.str, .strV septicYes),
   ("s3_data_" ++ p.str, .s3m s3Default),
   ("s4_data_" ++ p.str, .s4m s4Default),
   ("s5_data_" ++ p.str, .s5m s5Default),
   ("s6_data_" ++ p.str, .s6m s6Default),
   ("s7_electricity_" ++ p.str, .nmap s7ElecDefault),
   ("s7_water_" ++ p.str, .nmap s7WaterDefault),
   ("s7_water_source_" ++ p.str, .strV waterSourceDefault),
   ("water_factors_" ++ p.str, .nmap waterFactorsDefault)]

/-- `get_ar_initial_data(prefix)`: insert each default only if absent. -/
def get_ar_initial_data (y : ℤ) (p : Ver) (ss : Session) : Session :=
  initList (arDefaults y p) ss

/-- The key/default list of `get_campus_initial_data`. -/
def campusDefaults (y : ℤ) : List (String × SVal) :=
  [("campus_inventory_year", .intV (invYearDefault y)),
   ("campus_renewable_self_use",
     .renewV [("太陽能光電", 1000, "度電(kWh)"), ("風力發電", 0, "度電(kWh)")]),
   ("campus_renewable_sold",
     .renewV [("太陽能光電", 1000, "度電(kWh)"), ("風力發電", 0, "度電(kWh)")]),
   ("campus_tree_sink",
     .treesV [("針葉樹", 1000), ("闊葉樹", 500), ("棕梠科", 20)])]

/-- `get_campus_initial_data()`. -/
def get_campus_initial_data (y : ℤ) (ss : Session) : Session :=
  initList (campusDefaults y) ss

/-- `initialize_state()`: the page default, then the AR5 and AR6 stores,
then the campus page, each insert-only-if-absent. -/
def initialize_state (y : ℤ) (ss : Session) : Session :=
  get_campus_initial_data y
    (get_ar_initial_data y .ar6
      (get_ar_initial_data y .ar5
        (initList [("page", SVal.strV "AR5")] ss)))

/-- Project a stationary-data session value. -/
def getS1m : Option SVal → Option (List (String × S1Record))
  | some (.s1m m) => some m
  | _ => none

/-- Project a mobile-data session value. -/
def getS2m : Option SVal → Option (List (String × S2Record))
  | some (.s2m m) => some m
  | _ => none

/-- Project a wastewater-data session value. -/
def getS3m : Option SVal → Option (List (String × S3Record))
  | some (.s3m m) => some m
  | _ => none

/-- Project a fire-suppressant-data session value. -/
def getS4m : Option SVal → Option (List (String × S4Record))
  | some (.s4m m) => some m
  | _ => none

/-- Project a refrigerant-data session value. -/
def getS5m : Option SVal → Option (List (String × S5Record))
  | some (.s5m m) => some m
  | _ => none

/-- Project a commuting-data session value. -/
def getS6m : Option SVal → Option (List (String × S6Record))
  | some (.s6m m) => some m
  | _ => none

/-- Project a month-to-number session value. -/
def getNmap : Option SVal → Option (List (String × ℚ))
  | some (.nmap m) => some m
  | _ => none

/-- Project a string session value. -/
def getStr : Option SVal → Option String
  | some (.strV v) => some v
  | _ => none

/-- Assemble the `ActivityStore` of one version from its session keys —
exactly the keys `calculate_totals(prefix)` and `to_excel(prefix)` read. -/
def readStore (p : Ver) (ss : Session) : Option ActivityStore := do
  let m1 ← getS1m (lookupKey ("s1_data_" ++ p.str) ss)
  let m2 ← getS2m (lookupKey ("s2_data_" ++ p.str) ss)
  let flag ← getStr (lookupKey ("s3_septic_system_" ++ p.str) ss)
  let m3 ← getS3m (lookupKey ("s3_data_" ++ p.str) ss)
  let m4 ← getS4m (lookupKey ("s4_data_" ++ p.str) ss)
  let m5 ← getS5m (lookupKey ("s5_data_" ++ p.str) ss)
  let m6 ← getS6m (lookupKey ("s6_data_" ++ p.str) ss)
  let m7e ← getNmap (lookupKey ("s7_electricity_" ++ p.str) ss)
  let m7w ← getNmap (lookupKey ("s7_water_" ++ p.str) ss)
  let src ← getStr (lookupKey ("s7_water_source_" ++ p.str) ss)
  let wfs ← getNmap (lookupKey ("water_factors_" ++ p.str) ss)
  pure ⟨m1, m2, flag, m3, m4, m5, m6, m7e, m7w, src, wfs⟩

/-- `calculate_totals(prefix)` at session level: read the version's store,
compute, then write `totals_`, `scope_totals_` and `emission_breakdown_`
for that prefix; on a failed water lookup nothing is written (the
exception fires before the first session write). -/
def calculate_totals_session (p : Ver) (ss : Session) : Option Session :=
  match readStore p ss with
  | none => none
  | some store =>
    match calculate_totals store with
    | none => none
    | some r =>
      some (setKey ("emission_breakdown_" ++ p.str) (.nmap (breakdownOf r.1))
        (setKey ("scope_totals_" ++ p.str) (.scopesV r.2)
          (setKey ("totals_" ++ p.str) (.totalsV r.1) ss)))

/-- `to_excel(prefix)` at session level: a pure read of the version's
session keys producing a workbook, writing nothing. -/
def to_excel_session (p : Ver) (ss : Session) : Option ExcelFile :=
  match readStore p ss with
  | none => none
  | some store => to_excel store

/-- Every version-scoped session-key stem used by the application. -/
def verBases : List String :=
  ["show_dashboard_", "inventory_year_", "s1_data_", "s2_data_",
   "s3_septic_system_", "s3_data_", "s4_data_", "s5_data_", "s6_data_",
   "s7_electricity_", "s7_water_", "s7_water_source_", "water_factors_",
   "totals_", "scope_totals_", "emission_breakdown_"]

/-- All session keys belonging to one version. -/
def verKeys (p : Ver) : List String := verBases.map (fun b => b ++ p.str)

/-- A form edit: write one version-scoped session entry. -/
def writeVerData (p : Ver) (base : String) (v : SVal) (ss : Session) :
    Session :=
  setKey (base ++ p.str) v ss

/-- The activity record stored for one stationary line item of a
version, if any. -/
def getS1Record (ss : Session) (p : Ver) (item : String) : Option S1Record :=
  match lookupKey ("s1_data_" ++ p.str) ss with
  | some (SVal.s1m m) => lookupKey item m
  | _ => none

/-- The session produced by initializing a fresh (empty) session in 2025. -/
def sessionAfterInit : Session := initialize_state 2025 []

/-- The session after computing the AR5 totals on the freshly
initialized session. -/
def sessionAfterCalc : Session :=
  (calculate_totals_session .ar5 sessionAfterInit).getD []

/-- Apply the imported rows to one record's value: the label conditions
depend only on the record's key `k` and original display label `d`, so
each matching row overwrites the usage in turn. -/
def applyOne {α : Type} (upd : ℚ → α → α) (rows : List (String × ℚ))
    (k d : String) (v : α) : α :=
  rows.foldl (fun acc r => if r.1 = k ∨ r.1 = d then upd r.2 acc else acc) v

/-- The imported rows whose label matches a record with key `k` and
display label `d`. -/
def matchingRows (rows : List (String × ℚ)) (k d : String) :
    List (String × ℚ) :=
  rows.filter (fun r => decide (r.1 = k ∨ r.1 = d))

/-- A second activity store sharing the default line-item keys but with
every usage, distance and monthly value zeroed: an import target distinct
from the exporting store. -/
def altStore : ActivityStore :=
  { s1_data := s1Default.map (fun kv => (kv.1, { kv.2 with usage := 0 }))
    s2_data := s2Default.map (fun kv => (kv.1, { kv.2 with usage := 0 }))
    s3_septic_system := septicYes
    s3_data := s3Default.map (fun kv => (kv.1, { kv.2 with usage := 0 }))
    s4_data := s4Default.map (fun kv => (kv.1, { kv.2 with usage := 0 }))
    s5_data := s5Default.map (fun kv => (kv.1, { kv.2 with usage := 0 }))
    s6_data := s6Default.map (fun kv => (kv.1, { kv.2 with distance := 0 }))
    s7_electricity := monthNames.map (fun m => (m, 0))
    s7_water := monthNames.map (fun m => (m, 0))
    s7_water_source := waterSourceDefault
    water_factors := waterFactorsDefault }

/-- C1: for every activity store on which `calculate_totals` succeeds,
Scope 1 is the sum of the stationary, mobile, wastewater, fire-suppressant
and refrigerant subtotals, Scope 2 is the electricity subtotal, Scope 3 is
the commuting plus water subtotals, and the grand total equals
Scope 1 + Scope 2 + Scope 3, which also equals the sum of all 8 category
subtotals. -/
theorem claim_C1 (store : ActivityStore) (r : Totals × ScopeTotals)
    (h : calculate_totals store = some r) :
    r.2.scope1 = r.1.s1 + r.1.s2 + r.1.s3 + r.1.s4 + r.1.s5 ∧
    r.2.scope2 = r.1.s7_electricity ∧
    r.2.scope3 = r.1.s6 + r.1.s7_water ∧
    r.2.grandTotal = r.2.scope1 + r.2.scope2 + r.2.scope3 ∧
    r.2.grandTotal = r.1.s1 + r.1.s2 + r.1.s3 + r.1.s4 + r.1.s5 + r.1.s6 +
      r.1.s7_electricity + r.1.s7_water := by
  unfold calculate_totals at h
  cases hlk : lookupKey store.s7_water_source store.water_factors with
  | none => rw [hlk] at h; exact absurd h (by simp)
  | some wf =>
    rw [hlk] at h
    simp only [Option.some.injEq] at h
    subst h
    refine ⟨rfl, rfl, rfl, rfl, ?_⟩
    ring

/-- Witness for C1 at the default store. -/
theorem claim_C1_wit :
    (((calculate_totals defaultStore).getD
        ⟨⟨0, 0, 0, 0, 0, 0, 0, 0⟩, ⟨0, 0, 0, 0⟩⟩).2).scope1 =
      ((calculate_totals defaultStore).getD
        ⟨⟨0, 0, 0, 0, 0, 0, 0, 0⟩, ⟨0, 0, 0, 0⟩⟩).1.s1 +
      ((calculate_totals defaultStore).getD
        ⟨⟨0, 0, 0, 0, 0, 0, 0, 0⟩, ⟨0, 0, 0, 0⟩⟩).1.s2 +
      ((calculate_totals defaultStore).getD
        ⟨⟨0, 0, 0, 0, 0, 0, 0, 0⟩, ⟨0, 0, 0, 0⟩⟩).1.s3 +
      ((calculate_totals defaultStore).getD
        ⟨⟨0, 0, 0, 0, 0, 0, 0, 0⟩, ⟨0, 0, 0, 0⟩⟩).1.s4 +
      ((calculate_totals defaultStore).getD
        ⟨⟨0, 0, 0, 0, 0, 0, 0, 0⟩, ⟨0, 0, 0, 0⟩⟩).1.s5 ∧
    (((calculate_totals defaultStore).getD
        ⟨⟨0, 0, 0, 0, 0, 0, 0, 0⟩, ⟨0, 0, 0, 0⟩⟩).2).scope2 =
      ((calculate_totals defaultStore).getD
        ⟨⟨0, 0, 0, 0, 0, 0, 0, 0⟩, ⟨0, 0, 0, 0⟩⟩).1.s7_electricity ∧
    (((calculate_totals defaultStore).getD
        ⟨⟨0, 0, 0, 0, 0, 0, 0, 0⟩, ⟨0, 0, 0, 0⟩⟩).2).scope3 =
      ((calculate_totals defaultStore).getD
        ⟨⟨0, 0, 0, 0, 0, 0, 0, 0⟩, ⟨0, 0, 0, 0⟩⟩).1.s6 +
      ((calculate_totals defaultStore).getD
        ⟨⟨0, 0, 0, 0, 0, 0, 0, 0⟩, ⟨0, 0, 0, 0⟩⟩).1.s7_water ∧
    (((calculate_totals defaultStore).getD
        ⟨⟨0, 0, 0, 0, 0, 0, 0, 0⟩, ⟨0, 0, 0, 0⟩⟩).2).grandTotal =
      (((calculate_totals defaultStore).getD
        ⟨⟨0, 0, 0, 0, 0, 0, 0, 0⟩, ⟨0, 0, 0, 0⟩⟩).2).scope1 +
      (((calculate_totals defaultStore).getD
        ⟨⟨0, 0, 0, 0, 0, 0, 0, 0⟩, ⟨0, 0, 0, 0⟩⟩).2).scope2 +
      (((calculate_totals defaultStore).getD
        ⟨⟨0, 0, 0, 0, 0, 0, 0, 0⟩, ⟨0, 0, 0, 0⟩⟩).2).scope3 ∧
    (((calculate_totals defaultStore).getD
        ⟨⟨0, 0, 0, 0, 0, 0, 0, 0⟩, ⟨0, 0, 0, 0⟩⟩).2).grandTotal =
      ((calculate_totals defaultStore).getD
        ⟨⟨0, 0, 0, 0, 0, 0, 0, 0⟩, ⟨0, 0, 0, 0⟩⟩).1.s1 +
      ((calculate_totals defaultStore).getD
        ⟨⟨0, 0, 0, 0, 0, 0, 0, 0⟩, ⟨0, 0, 0, 0⟩⟩).1.s2 +
      ((calculate_totals defaultStore).getD
        ⟨⟨0, 0, 0, 0, 0, 0, 0, 0⟩, ⟨0, 0, 0, 0⟩⟩).1.s3 +
      ((calculate_totals defaultStore).getD
        ⟨⟨0, 0, 0, 0, 0, 0, 0, 0⟩, ⟨0, 0, 0, 0⟩⟩).1.s4 +
      ((calculate_totals defaultStore).getD
        ⟨⟨0, 0, 0, 0, 0, 0, 0, 0⟩, ⟨0, 0, 0, 0⟩⟩).1.s5 +
      ((calculate_totals defaultStore).getD
        ⟨⟨0, 0, 0, 0, 0, 0, 0, 0⟩, ⟨0, 0, 0, 0⟩⟩).1.s6 +
      ((calculate_totals defaultStore).getD
        ⟨⟨0, 0, 0, 0, 0, 0, 0, 0⟩, ⟨0, 0, 0, 0⟩⟩).1.s7_electricity +
      ((calculate_totals defaultStore).getD
        ⟨⟨0, 0, 0, 0, 0, 0, 0, 0⟩, ⟨0, 0, 0, 0⟩⟩).1.s7_water :=
  claim_C1 defaultStore _ rfl

/-- C4: the fire-suppressant per-item emission is usage × gwp / 1000 when
gwp is non-null (whatever the factor field holds), else usage × factor
when factor is non-null, else 0 — an item with both fields null
contributes 0 rather than erroring — and the engine succeeds on any store
whose selected water utility is known; an item with gwp=3350 and usage=1
contributes exactly 3.35 tonnes. -/
theorem claim_C4 (store : ActivityStore)
    (hS : (lookupKey store.s7_water_source store.water_factors).isSome = true)
    (u g f : ℚ) (fo : Option ℚ) :
    (calculate_totals store).isSome = true ∧
    s4_item ⟨u, some g, fo⟩ = u * g / 1000 ∧
    s4_item ⟨u, none, some f⟩ = u * f ∧
    s4_item ⟨u, none, none⟩ = 0 ∧
    s4_item ⟨1, some 3350, none⟩ = 3.35 := by
  refine ⟨?_, rfl, rfl, rfl, by norm_num [s4_item]⟩
  cases hlk : lookupKey store.s7_water_source store.water_factors with
  | none => rw [hlk] at hS; exact absurd hS (by simp)
  | some wf => unfold calculate_totals; rw [hlk]; rfl

/-- Witness for C4 at the default store and concrete record values. -/
theorem claim_C4_wit :
    (calculate_totals defaultStore).isSome = true ∧
    s4_item ⟨(1 : ℚ), some 3350, none⟩ = 1 * 3350 / 1000 ∧
    s4_item ⟨(1 : ℚ), none, some 2⟩ = 1 * 2 ∧
    s4_item ⟨(1 : ℚ), none, none⟩ = 0 ∧
    s4_item ⟨1, some 3350, none⟩ = 3.35 :=
  claim_C4 defaultStore rfl 1 3350 2 none

/-- C5: whenever `calculate_totals` succeeds, the wastewater subtotal is
the sum of usage × factor × CH4-GWP over the wastewater items when the
septic-system selector equals the in-use value, and is exactly 0 for any
other selector value, regardless of the wastewater records. -/
theorem claim_C5 (store : ActivityStore) (r : Totals × ScopeTotals)
    (h : calculate_totals store = some r) :
    (store.s3_septic_system = septicYes → r.1.s3 = sumBy store.s3_data s3_item) ∧
    (store.s3_septic_system ≠ septicYes → r.1.s3 = 0) := by
  unfold calculate_totals at h
  cases hlk : lookupKey store.s7_water_source store.water_factors with
  | none => rw [hlk] at h; exact absurd h (by simp)
  | some wf =>
    rw [hlk] at h
    simp only [Option.some.injEq] at h
    subst h
    constructor
    · intro hy; simp [hy]
    · intro hn; simp [hn]

/-- Witness for C5: septic-in-use default store gives the CH4 sum, and the
same store with the selector switched off gives 0. -/
theorem claim_C5_wit :
    (((calculate_totals defaultStore).getD
        ⟨⟨0, 0, 0, 0, 0, 0, 0, 0⟩, ⟨0, 0, 0, 0⟩⟩).1).s3 =
      sumBy defaultStore.s3_data s3_item ∧
    (((calculate_totals { defaultStore with s3_septic_system := septicNo }).getD
        ⟨⟨0, 0, 0, 0, 0, 0, 0, 0⟩, ⟨0, 0, 0, 0⟩⟩).1).s3 = 0 :=
  ⟨(claim_C5 defaultStore _ rfl).1 rfl,
   (claim_C5 { defaultStore with s3_septic_system := septicNo } _ rfl).2
     (by decide)⟩

/-- C8 counterexample: the claim says the fire-suppressant formula divides
by 1000, but the factor branch does not — the catalog's dry-powder item
(usage 1, factor 0.0003) contributes 0.0003 tonnes, not 0.0003 / 1000. -/
theorem claim_C8_cex :
    lookupKey ("BC型乾粉滅火器") s4Default = some ⟨1, none, some 0.0003⟩ ∧
    s4_item ⟨1, none, some 0.0003⟩ = 0.0003 ∧
    s4_item ⟨1, none, some 0.0003⟩ ≠ 1 * 0.0003 / 1000 := by
  refine ⟨rfl, by norm_num [s4_item], by norm_num [s4_item]⟩

/-- C8 (amended): stationary and mobile items contribute usage × factor
with no division by 1000 (e.g. factor 0.002271 with usage 100 gives
0.2271); the fire-suppressant GWP branch, refrigerant, commuting,
electricity and water formulas each divide by 1000; the fire-suppressant
factor branch, like stationary and mobile, multiplies usage × factor
directly. -/
theorem claim_C8 (u f g d wf : ℚ) (un : String) (nm : Option String)
    (fo : Option ℚ) (store : ActivityStore) (r : Totals × ScopeTotals)
    (h : calculate_totals store = some r)
    (hw : lookupKey store.s7_water_source store.water_factors = some wf) :
    s1_item ⟨u, un, f⟩ = u * f ∧
    s2_item ⟨nm, u, un, f⟩ = u * f ∧
    s1_item ⟨100, un, 0.002271⟩ = 0.2271 ∧
    s4_item ⟨u, some g, fo⟩ = u * g / 1000 ∧
    s4_item ⟨u, none, some f⟩ = u * f ∧
    s5_item ⟨u, g⟩ = u * g / 1000 ∧
    s6_item ⟨d, f⟩ = d * f / 1000 ∧
    r.1.s7_electricity = sumVals store.s7_electricity * 0.474 / 1000 ∧
    r.1.s7_water = sumVals store.s7_water * wf / 1000 := by
  unfold calculate_totals at h
  rw [hw] at h
  simp only [Option.some.injEq] at h
  subst h
  exact ⟨rfl, rfl, by norm_num [s1_item], rfl, rfl, rfl, rfl, rfl, rfl⟩

/-- Witness for C8 (amended) at the default store. -/
theorem claim_C8_wit :
    s1_item ⟨(100 : ℚ), "公升/年", 0.002271⟩ = 100 * 0.002271 ∧
    s2_item ⟨none, (100 : ℚ), "公升/年", 0.002271⟩ = 100 * 0.002271 ∧
    s1_item ⟨100, "公升/年", 0.002271⟩ = 0.2271 ∧
    s4_item ⟨(100 : ℚ), some 3350, none⟩ = 100 * 3350 / 1000 ∧
    s4_item ⟨(100 : ℚ), none, some 0.002271⟩ = 100 * 0.002271 ∧
    s5_item ⟨(100 : ℚ), 3350⟩ = 100 * 3350 / 1000 ∧
    s6_item ⟨(100 : ℚ), 0.002271⟩ = 100 * 0.002271 / 1000 ∧
    (((calculate_totals defaultStore).getD
        ⟨⟨0, 0, 0, 0, 0, 0, 0, 0⟩, ⟨0, 0, 0, 0⟩⟩).1).s7_electricity =
      sumVals defaultStore.s7_electricity * 0.474 / 1000 ∧
    (((calculate_totals defaultStore).getD
        ⟨⟨0, 0, 0, 0, 0, 0, 0, 0⟩, ⟨0, 0, 0, 0⟩⟩).1).s7_water =
      sumVals defaultStore.s7_water * 0.1872 / 1000 :=
  claim_C8 100 0.002271 3350 100 0.1872 ("公升/年") none none
    defaultStore _ rfl rfl

/-- C9: `calculate_totals` fails exactly when the selected water utility
is not a key of the water-factor table; when the lookup yields a factor,
the water subtotal is (sum of the monthly values) × factor / 1000. -/
theorem claim_C9 (store : ActivityStore) :
    (lookupKey store.s7_water_source store.water_factors = none ↔
      calculate_totals store = none) ∧
    (∀ wf, lookupKey store.s7_water_source store.water_factors = some wf →
      ∃ r, calculate_totals store = some r ∧
        r.1.s7_water = sumVals store.s7_water * wf / 1000) := by
  constructor
  · constructor
    · intro h; unfold calculate_totals; rw [h]
    · intro h
      cases hlk : lookupKey store.s7_water_source store.water_factors with
      | none => rfl
      | some wf => unfold calculate_totals at h; rw [hlk] at h; exact absurd h (by simp)
  · intro wf hw
    unfold calculate_totals
    rw [hw]
    exact ⟨_, rfl, rfl⟩

/-- Witness for C9: an unknown utility makes the engine fail; the default
utility yields the expected water subtotal. -/
theorem claim_C9_wit :
    (lookupKey ({ defaultStore with s7_water_source := "未知供水單位" } :
        ActivityStore).s7_water_source
      ({ defaultStore with s7_water_source := "未知供水單位" } :
        ActivityStore).water_factors = none ↔
      calculate_totals { defaultStore with s7_water_source := "未知供水單位" } = none) ∧
    (∃ r, calculate_totals defaultStore = some r ∧
      r.1.s7_water = sumVals defaultStore.s7_water * 0.1872 / 1000) :=
  ⟨(claim_C9 { defaultStore with s7_water_source := "未知供水單位" }).1,
   (claim_C9 defaultStore).2 0.1872 rfl⟩

/-- Unfolding lemma: applying a cons of rows applies the head row first. -/
theorem updRows_cons {α : Type} (disp : String → α → String)
    (upd : ℚ → α → α) (r : String × ℚ) (rows : List (String × ℚ))
    (xs : List (String × α)) :
    updRows disp upd (r :: rows) xs =
      updRows disp upd rows (updMatch disp upd r.1 r.2 xs) := rfl

/-- A row whose label matches no record leaves the list unchanged. -/
theorem updMatch_skip {α : Type} (disp : String → α → String)
    (upd : ℚ → α → α) (label : String) (u : ℚ) (xs : List (String × α))
    (h : ∀ kv ∈ xs, label ≠ kv.1 ∧ label ≠ disp kv.1 kv.2) :
    updMatch disp upd label u xs = xs := by
  induction xs with
  | nil => rfl
  | cons x xs ih =>
    have hx := h x (by simp)
    have ht : updMatch disp upd label u xs = xs :=
      ih (fun kv hkv => h kv (by simp [hkv]))
    simp only [updMatch, List.map_cons] at ht ⊢
    rw [if_neg (not_or.mpr hx), ht]

/-- Rows none of which matches the head record commute past it. -/
theorem updRows_skip_head {α : Type} (disp : String → α → String)
    (upd : ℚ → α → α) (x : String × α) (rows : List (String × ℚ))
    (xs : List (String × α))
    (h : ∀ r ∈ rows, r.1 ≠ x.1 ∧ r.1 ≠ disp x.1 x.2) :
    updRows disp upd rows (x :: xs) = x :: updRows disp upd rows xs := by
  induction rows generalizing xs with
  | nil => rfl
  | cons r rs ih =>
    have hr := h r (List.mem_cons_self r rs)
    have hm : updMatch disp upd r.1 r.2 (x :: xs) =
        x :: updMatch disp upd r.1 r.2 xs := by
      show (if r.1 = x.1 ∨ r.1 = disp x.1 x.2 then (x.1, upd r.2 x.2) else x) ::
          updMatch disp upd r.1 r.2 xs = x :: updMatch disp upd r.1 r.2 xs
      rw [if_neg (not_or.mpr hr)]
    rw [updRows_cons, hm, updRows_cons]
    exact ih (updMatch disp upd r.1 r.2 xs)
      (fun r' hr' => h r' (List.mem_cons_of_mem _ hr'))

/-- Importing the rows exported from the very same list restores it, as
long as no two records' labels collide. -/
theorem updRows_export_self {α : Type} (disp : String → α → String)
    (upd : ℚ → α → α) (use : α → ℚ) (hid : ∀ v, upd (use v) v = v)
    (xs : List (String × α)) (hsep : sepChk disp xs = true) :
    updRows disp upd (xs.map (fun kv => (disp kv.1 kv.2, use kv.2))) xs = xs := by
  induction xs with
  | nil => rfl
  | cons x xs ih =>
    simp only [sepChk, Bool.and_eq_true, List.all_eq_true,
      decide_eq_true_eq] at hsep
    obtain ⟨hall, hrec⟩ := hsep
    rw [List.map_cons, updRows_cons]
    have ht : updMatch disp upd (disp x.1 x.2) (use x.2) xs = xs :=
      updMatch_skip disp upd (disp x.1 x.2) (use x.2) xs
        (fun kv hkv => ⟨(hall kv hkv).1, (hall kv hkv).2.1⟩)
    have hm : updMatch disp upd (disp x.1 x.2) (use x.2) (x :: xs) =
        x :: xs := by
      show (if disp x.1 x.2 = x.1 ∨ disp x.1 x.2 = disp x.1 x.2 then
          (x.1, upd (use x.2) x.2) else x) ::
          updMatch disp upd (disp x.1 x.2) (use x.2) xs = x :: xs
      rw [if_pos (Or.inr rfl), hid x.2, ht]
    have hskip := updRows_skip_head disp upd x
      (xs.map (fun kv => (disp kv.1 kv.2, use kv.2))) xs
      (fun r hr => by
        obtain ⟨kv, hkv, hre⟩ := List.mem_map.mp hr
        subst hre
        exact ⟨(hall kv hkv).2.2.1, (hall kv hkv).2.2.2⟩)
    show updRows disp upd (xs.map (fun kv => (disp kv.1 kv.2, use kv.2)))
        (updMatch disp upd (disp x.1 x.2) (use x.2) (x :: xs)) = x :: xs
    rw [hm, hskip, ih hrec]

/-- `updMatch` never changes the key column. -/
theorem updMatch_map_fst {α : Type} (disp : String → α → String)
    (upd : ℚ → α → α) (label : String) (u : ℚ) (xs : List (String × α)) :
    (updMatch disp upd label u xs).map Prod.fst = xs.map Prod.fst := by
  unfold updMatch
  rw [List.map_map]
  exact List.map_congr_left (fun kv _ => by dsimp; split <;> rfl)

/-- `updRows` never changes the key column. -/
theorem updRows_map_fst {α : Type} (disp : String → α → String)
    (upd : ℚ → α → α) (rows : List (String × ℚ)) (xs : List (String × α)) :
    (updRows disp upd rows xs).map Prod.fst = xs.map Prod.fst := by
  induction rows generalizing xs with
  | nil => rfl
  | cons r rs ih =>
    rw [updRows_cons, ih (updMatch disp upd r.1 r.2 xs), updMatch_map_fst]

/-- `updMatch` preserves every record projection the update leaves alone. -/
theorem updMatch_map_proj {α β : Type} (disp : String → α → String)
    (upd : ℚ → α → α) (π : α → β) (hπ : ∀ q v, π (upd q v) = π v)
    (label : String) (u : ℚ) (xs : List (String × α)) :
    (updMatch disp upd label u xs).map (fun kv => π kv.2) =
      xs.map (fun kv => π kv.2) := by
  unfold updMatch
  rw [List.map_map]
  exact List.map_congr_left (fun kv _ => by dsimp; split <;> simp [hπ])

/-- `updRows` preserves every record projection the update leaves alone. -/
theorem updRows_map_proj {α β : Type} (disp : String → α → String)
    (upd : ℚ → α → α) (π : α → β) (hπ : ∀ q v, π (upd q v) = π v)
    (rows : List (String × ℚ)) (xs : List (String × α)) :
    (updRows disp upd rows xs).map (fun kv => π kv.2) =
      xs.map (fun kv => π kv.2) := by
  induction rows generalizing xs with
  | nil => rfl
  | cons r rs ih =>
    rw [updRows_cons, ih (updMatch disp upd r.1 r.2 xs),
      updMatch_map_proj _ _ _ hπ]

/-- On items with exactly one of gwp/factor set, the export's emission
column (factor assignment last) agrees with the engine's branch order
(gwp first). -/
theorem s4_export_emission_eq_item (v : S4Record)
    (h : v.gwp.isSome ≠ v.factor.isSome) :
    s4_export_emission v = s4_item v := by
  cases hg : v.gwp <;> cases hf : v.factor
  · rw [hg, hf] at h; exact absurd rfl h
  · simp [s4_export_emission, s4_item, hg, hf]
  · simp [s4_export_emission, s4_item, hg, hf]
  · rw [hg, hf] at h; exact absurd rfl h

/-- C3: every emission value in every sheet written by `to_excel` equals
the per-item emission the engine's formulas compute for that same line
item (export recomputes from raw inputs, it copies no totals); for the
fire-suppressant sheet this relies on the invariant that exactly one of
gwp/factor is set per item. -/
theorem claim_C3 (store : ActivityStore) (wf : ℚ)
    (hw : lookupKey store.s7_water_source store.water_factors = some wf)
    (hinv : store.s4_data.all
      (fun kv => decide (kv.2.gwp.isSome ≠ kv.2.factor.isSome)) = true) :
    (to_excel store).map fileEmissionCols = some (engineEmissionCols store wf) := by
  simp only [List.all_eq_true, decide_eq_true_eq] at hinv
  unfold to_excel
  rw [hw]
  simp only [Option.map_some', Option.some.injEq]
  unfold fileEmissionCols engineEmissionCols
  simp only [Prod.mk.injEq, List.map_map]
  refine ⟨?_, ?_, ?_, ?_, ?_, ?_, ?_, ?_⟩
  · rfl
  · rfl
  · by_cases hc : store.s3_septic_system = septicYes
    · simp only [if_pos hc, Option.map_some', Option.some.injEq, List.map_map]
      rfl
    · simp only [if_neg hc, Option.map_none']
  · exact List.map_congr_left (fun kv hkv => s4_export_emission_eq_item kv.2 (hinv kv hkv))
  · rfl
  · rfl
  · rfl
  · rfl

/-- Witness for C3 at the default store. -/
theorem claim_C3_wit :
    (to_excel defaultStore).map fileEmissionCols =
      some (engineEmissionCols defaultStore 0.1872) :=
  claim_C3 defaultStore 0.1872 rfl (by decide)

/-- Lookup commutes with a key-preserving map of the values. -/
theorem lookupKey_map_keyed {α β : Type} (g : String → α → β) (k : String)
    (xs : List (String × α)) :
    lookupKey k (xs.map (fun kv => (kv.1, g kv.1 kv.2))) =
      (lookupKey k xs).map (g k) := by
  induction xs with
  | nil => rfl
  | cons x xs ih =>
    by_cases hx : x.1 = k
    · subst hx
      simp [List.map_cons, lookupKey]
    · simp only [List.map_cons, lookupKey, if_neg hx]
      exact ih

/-- `updRows` is a pointwise transformation: each record's final value is
its original value with every matching row's usage applied in order,
provided the update never changes the display label. -/
theorem updRows_eq_map {α : Type} (disp : String → α → String)
    (upd : ℚ → α → α)
    (hdisp : ∀ (u : ℚ) (k : String) (v : α), disp k (upd u v) = disp k v)
    (rows : List (String × ℚ)) (xs : List (String × α)) :
    updRows disp upd rows xs =
      xs.map (fun kv => (kv.1, applyOne upd rows kv.1 (disp kv.1 kv.2) kv.2)) := by
  induction rows generalizing xs with
  | nil => exact (List.map_id xs).symm
  | cons r rs ih =>
    show updRows disp upd rs (updMatch disp upd r.1 r.2 xs) = _
    rw [ih (updMatch disp upd r.1 r.2 xs)]
    unfold updMatch
    rw [List.map_map]
    apply List.map_congr_left
    intro kv _
    dsimp only [Function.comp]
    by_cases hc : r.1 = kv.1 ∨ r.1 = disp kv.1 kv.2
    · rw [if_pos hc]
      dsimp only
      rw [hdisp r.2 kv.1 kv.2]
      show _ = (kv.1, applyOne upd rs kv.1 (disp kv.1 kv.2)
        (if r.1 = kv.1 ∨ r.1 = disp kv.1 kv.2 then upd r.2 kv.2 else kv.2))
      rw [if_pos hc]
    · rw [if_neg hc]
      show _ = (kv.1, applyOne upd rs kv.1 (disp kv.1 kv.2)
        (if r.1 = kv.1 ∨ r.1 = disp kv.1 kv.2 then upd r.2 kv.2 else kv.2))
      rw [if_neg hc]

/-- `applyOne` folds exactly over the matching rows. -/
theorem applyOne_eq_foldl_matching {α : Type} (upd : ℚ → α → α)
    (rows : List (String × ℚ)) (k d : String) (v : α) :
    applyOne upd rows k d v =
      (matchingRows rows k d).foldl (fun acc r => upd r.2 acc) v := by
  induction rows generalizing v with
  | nil => rfl
  | cons r rs ih =>
    by_cases hc : r.1 = k ∨ r.1 = d
    · have h1 : applyOne upd (r :: rs) k d v = applyOne upd rs k d (upd r.2 v) := by
        show List.foldl _ (if r.1 = k ∨ r.1 = d then upd r.2 v else v) rs = _
        rw [if_pos hc]
        rfl
      have h2 : matchingRows (r :: rs) k d = r :: matchingRows rs k d := by
        simp [matchingRows, List.filter_cons, hc]
      rw [h1, ih (upd r.2 v), h2]
      rfl
    · have h1 : applyOne upd (r :: rs) k d v = applyOne upd rs k d v := by
        show List.foldl _ (if r.1 = k ∨ r.1 = d then upd r.2 v else v) rs = _
        rw [if_neg hc]
        rfl
      have h2 : matchingRows (r :: rs) k d = matchingRows rs k d := by
        simp [matchingRows, List.filter_cons, hc]
      rw [h1, ih v, h2]

/-- When a record's key-or-label matches exactly one imported row, that
record's usage is set to the row's value and nothing else of it
changes. -/
theorem updRows_lookupKey {α : Type} (disp : String → α → String)
    (upd : ℚ → α → α)
    (hdisp : ∀ (u : ℚ) (k : String) (v : α), disp k (upd u v) = disp k v)
    (rows : List (String × ℚ)) (xs : List (String × α))
    (k : String) (v : α) (u : ℚ)
    (hv : lookupKey k xs = some v)
    (hm : (matchingRows rows k (disp k v)).map Prod.snd = [u]) :
    lookupKey k (updRows disp upd rows xs) = some (upd u v) := by
  rw [updRows_eq_map disp upd hdisp rows xs]
  rw [lookupKey_map_keyed (fun kk vv => applyOne upd rows kk (disp kk vv) vv) k xs]
  rw [hv]
  rw [Option.map_some']
  rw [applyOne_eq_foldl_matching]
  cases hmr : matchingRows rows k (disp k v) with
  | nil => rw [hmr] at hm; exact absurd hm (by simp)
  | cons m ms =>
    rw [hmr] at hm
    simp only [List.map_cons, List.cons.injEq] at hm
    obtain ⟨hm1, hm2⟩ := hm
    have hms : ms = [] := by
      cases ms with
      | nil => rfl
      | cons a as => simp at hm2
    subst hms
    show some (upd m.2 v) = some (upd u v)
    rw [hm1]

/-- C2: round-trip law — exporting a store S and importing the workbook
into any store S′ restores, for every line item of S′ whose key or
display label matches exactly one exported row, S's usage/distance value
for that line item, altering nothing else of the record; importing S's
own export back into S restores S verbatim (for collision-free labels, a
known utility and a well-formed septic selector); and import never
inserts or removes line items and never alters name/unit/factor/GWP
columns or the factor table. -/
theorem claim_C2 (store : ActivityStore) (wf : ℚ) (f g : ExcelFile)
    (s : ActivityStore)
    (hw : lookupKey store.s7_water_source store.water_factors = some wf)
    (hsep1 : sepChk dispKey store.s1_data = true)
    (hsep2 : sepChk dispS2 store.s2_data = true)
    (hsep3 : sepChk dispKey store.s3_data = true)
    (hsep4 : sepChk dispKey store.s4_data = true)
    (hsep5 : sepChk dispKey store.s5_data = true)
    (hsep6 : sepChk dispKey store.s6_data = true)
    (hsep7 : sepChk dispKey store.s7_electricity = true)
    (hsep8 : sepChk dispKey store.s7_water = true)
    (hflag : store.s3_septic_system = septicYes ∨
      store.s3_septic_system = septicNo)
    (hF : to_excel store = some f) :
    importExcel f store = store ∧
    keysOf (importExcel g s) = keysOf s ∧
    coeffsOf (importExcel g s) = coeffsOf s ∧
    (∀ k v u, lookupKey k s.s1_data = some v →
      (matchingRows (store.s1_data.map (fun kv => (kv.1, kv.2.usage)))
          k k).map Prod.snd = [u] →
      lookupKey k ((importExcel f s).s1_data) = some (updUsageS1 u v)) ∧
    (∀ k v u, lookupKey k s.s2_data = some v →
      (matchingRows (store.s2_data.map
            (fun kv => (dispS2 kv.1 kv.2, kv.2.usage)))
          k (dispS2 k v)).map Prod.snd = [u] →
      lookupKey k ((importExcel f s).s2_data) = some (updUsageS2 u v)) ∧
    (∀ k v u, store.s3_septic_system = septicYes →
      lookupKey k s.s3_data = some v →
      (matchingRows (store.s3_data.map (fun kv => (kv.1, kv.2.usage)))
          k k).map Prod.snd = [u] →
      lookupKey k ((importExcel f s).s3_data) = some (updUsageS3 u v)) ∧
    (∀ k v u, lookupKey k s.s4_data = some v →
      (matchingRows (store.s4_data.map (fun kv => (kv.1, kv.2.usage)))
          k k).map Prod.snd = [u] →
      lookupKey k ((importExcel f s).s4_data) = some (updUsageS4 u v)) ∧
    (∀ k v u, lookupKey k s.s5_data = some v →
      (matchingRows (store.s5_data.map (fun kv => (kv.1, kv.2.usage)))
          k k).map Prod.snd = [u] →
      lookupKey k ((importExcel f s).s5_data) = some (updUsageS5 u v)) ∧
    (∀ k v u, lookupKey k s.s6_data = some v →
      (matchingRows (store.s6_data.map (fun kv => (kv.1, kv.2.distance)))
          k k).map Prod.snd = [u] →
      lookupKey k ((importExcel f s).s6_data) = some (updDistS6 u v)) ∧
    (∀ k v u, lookupKey k s.s7_electricity = some v →
      (matchingRows store.s7_electricity k k).map Prod.snd = [u] →
      lookupKey k ((importExcel f s).s7_electricity) = some (updVal u v)) ∧
    (∀ k v u, lookupKey k s.s7_water = some v →
      (matchingRows store.s7_water k k).map Prod.snd = [u] →
      lookupKey k ((importExcel f s).s7_water) = some (updVal u v)) := by
  unfold to_excel at hF
  rw [hw] at hF
  simp only [Option.some.injEq] at hF
  subst hF
  refine ⟨?_, ?_, ?_, ?_, ?_, ?_, ?_, ?_, ?_, ?_, ?_⟩
  · unfold importExcel
    dsimp only
    have h1 : updRows dispKey updUsageS1
        ((store.s1_data.map (fun kv =>
          (⟨kv.1, kv.2.usage, kv.2.unit, kv.2.factor,
            kv.2.usage * kv.2.factor⟩ : Sheet1Row))).map
          (fun r => (r.label, r.usage))) store.s1_data = store.s1_data := by
      rw [List.map_map]
      exact updRows_export_self dispKey updUsageS1 (fun v => v.usage)
        (fun v => rfl) store.s1_data hsep1
    have h2 : updRows dispS2 updUsageS2
        ((store.s2_data.map (fun kv =>
          (⟨kv.2.name.getD kv.1, kv.2.usage, kv.2.unit, kv.2.factor,
            kv.2.usage * kv.2.factor⟩ : Sheet2Row))).map
          (fun r => (r.label, r.usage))) store.s2_data = store.s2_data := by
      rw [List.map_map]
      exact updRows_export_self dispS2 updUsageS2 (fun v => v.usage)
        (fun v => rfl) store.s2_data hsep2
    have h3 : updRows dispKey updUsageS3
        ((store.s3_data.map (fun kv =>
          (⟨kv.1, kv.2.usage, kv.2.factor,
            kv.2.usage * kv.2.factor * 28⟩ : Sheet3Row))).map
          (fun r => (r.label, r.usage))) store.s3_data = store.s3_data := by
      rw [List.map_map]
      exact updRows_export_self dispKey updUsageS3 (fun v => v.usage)
        (fun v => rfl) store.s3_data hsep3
    have h4 : updRows dispKey updUsageS4
        ((store.s4_data.map (fun kv =>
          (⟨kv.1, kv.2.usage, kv.2.gwp, kv.2.factor,
            s4_export_emission kv.2⟩ : Sheet4Row))).map
          (fun r => (r.label, r.usage))) store.s4_data = store.s4_data := by
      rw [List.map_map]
      exact updRows_export_self dispKey updUsageS4 (fun v => v.usage)
        (fun v => rfl) store.s4_data hsep4
    have h5 : updRows dispKey updUsageS5
        ((store.s5_data.map (fun kv =>
          (⟨kv.1, kv.2.usage, kv.2.gwp,
            kv.2.usage * kv.2.gwp / 1000⟩ : Sheet5Row))).map
          (fun r => (r.label, r.usage))) store.s5_data = store.s5_data := by
      rw [List.map_map]
      exact updRows_export_self dispKey updUsageS5 (fun v => v.usage)
        (fun v => rfl) store.s5_data hsep5
    have h6 : updRows dispKey updDistS6
        ((store.s6_data.map (fun kv =>
          (⟨kv.1, kv.2.distance, kv.2.factor,
            kv.2.distance * kv.2.factor / 1000⟩ : Sheet6Row))).map
          (fun r => (r.label, r.distance))) store.s6_data = store.s6_data := by
      rw [List.map_map]
      exact updRows_export_self dispKey updDistS6 (fun v => v.distance)
        (fun v => rfl) store.s6_data hsep6
    have h7 : updRows dispKey updVal
        ((store.s7_electricity.map (fun kv =>
          (⟨kv.1, kv.2, kv.2 * 0.474 / 1000⟩ : MonthRow))).map
          (fun r => (r.month, r.usage))) store.s7_electricity =
        store.s7_electricity := by
      rw [List.map_map]
      exact updRows_export_self dispKey updVal (fun v => v)
        (fun v => rfl) store.s7_electricity hsep7
    have h8 : updRows dispKey updVal
        ((store.s7_water.map (fun kv =>
          (⟨kv.1, kv.2, kv.2 * wf / 1000⟩ : MonthRow))).map
          (fun r => (r.month, r.usage))) store.s7_water = store.s7_water := by
      rw [List.map_map]
      exact updRows_export_self dispKey updVal (fun v => v)
        (fun v => rfl) store.s7_water hsep8
    rcases hflag with hy | hn
    · rw [if_pos hy]
      dsimp only
      rw [h1, h2, h3, h4, h5, h6, h7, h8, ← hy]
    · have hcond : ¬(store.s3_septic_system = septicYes) := by
        rw [hn]; decide
      rw [if_neg hcond]
      dsimp only
      rw [h1, h2, h4, h5, h6, h7, h8, ← hn]
  · cases h3f : g.sheet3 with
    | none => simp only [keysOf, importExcel, h3f, updRows_map_fst]
    | some rows => simp only [keysOf, importExcel, h3f, updRows_map_fst]
  · have p1 := updRows_map_proj dispKey updUsageS1
      (fun v => (v.unit, v.factor)) (fun q v => rfl)
    have p2 := updRows_map_proj dispS2 updUsageS2
      (fun v => (v.name, v.unit, v.factor)) (fun q v => rfl)
    have p3 := updRows_map_proj dispKey updUsageS3
      (fun v => v.factor) (fun q v => rfl)
    have p4 := updRows_map_proj dispKey updUsageS4
      (fun v => (v.gwp, v.factor)) (fun q v => rfl)
    have p5 := updRows_map_proj dispKey updUsageS5
      (fun v => v.gwp) (fun q v => rfl)
    have p6 := updRows_map_proj dispKey updDistS6
      (fun v => v.factor) (fun q v => rfl)
    cases h3f : g.sheet3 with
    | none => simp only [coeffsOf, importExcel, h3f, p1, p2, p3, p4, p5, p6]
    | some rows => simp only [coeffsOf, importExcel, h3f, p1, p2, p3, p4, p5, p6]
  · intro k v u hv hm
    have hrows : ((store.s1_data.map (fun kv =>
        (⟨kv.1, kv.2.usage, kv.2.unit, kv.2.factor,
          kv.2.usage * kv.2.factor⟩ : Sheet1Row))).map
        (fun r => (r.label, r.usage))) =
        store.s1_data.map (fun kv => (kv.1, kv.2.usage)) := by
      rw [List.map_map]
      rfl
    simp only [importExcel]
    rw [hrows]
    exact updRows_lookupKey dispKey updUsageS1 (fun _ _ _ => rfl) _ _ k v u hv hm
  · intro k v u hv hm
    have hrows : ((store.s2_data.map (fun kv =>
        (⟨kv.2.name.getD kv.1, kv.2.usage, kv.2.unit, kv.2.factor,
          kv.2.usage * kv.2.factor⟩ : Sheet2Row))).map
        (fun r => (r.label, r.usage))) =
        store.s2_data.map (fun kv => (dispS2 kv.1 kv.2, kv.2.usage)) := by
      rw [List.map_map]
      rfl
    simp only [importExcel]
    rw [hrows]
    exact updRows_lookupKey dispS2 updUsageS2 (fun _ _ _ => rfl) _ _ k v u hv hm
  · intro k v u hy hv hm
    have hrows : ((store.s3_data.map (fun kv =>
        (⟨kv.1, kv.2.usage, kv.2.factor,
          kv.2.usage * kv.2.factor * 28⟩ : Sheet3Row))).map
        (fun r => (r.label, r.usage))) =
        store.s3_data.map (fun kv => (kv.1, kv.2.usage)) := by
      rw [List.map_map]
      rfl
    simp only [importExcel, if_pos hy]
    rw [hrows]
    exact updRows_lookupKey dispKey updUsageS3 (fun _ _ _ => rfl) _ _ k v u hv hm
  · intro k v u hv hm
    have hrows : ((store.s4_data.map (fun kv =>
        (⟨kv.1, kv.2.usage, kv.2.gwp, kv.2.factor,
          s4_export_emission kv.2⟩ : Sheet4Row))).map
        (fun r => (r.label, r.usage))) =
        store.s4_data.map (fun kv => (kv.1, kv.2.usage)) := by
      rw [List.map_map]
      rfl
    simp only [importExcel]
    rw [hrows]
    exact updRows_lookupKey dispKey updUsageS4 (fun _ _ _ => rfl) _ _ k v u hv hm
  · intro k v u hv hm
    have hrows : ((store.s5_data.map (fun kv =>
        (⟨kv.1, kv.2.usage, kv.2.gwp,
          kv.2.usage * kv.2.gwp / 1000⟩ : Sheet5Row))).map
        (fun r => (r.label, r.usage))) =
        store.s5_data.map (fun kv => (kv.1, kv.2.usage)) := by
      rw [List.map_map]
      rfl
    simp only [importExcel]
    rw [hrows]
    exact updRows_lookupKey dispKey updUsageS5 (fun _ _ _ => rfl) _ _ k v u hv hm
  · intro k v u hv hm
    have hrows : ((store.s6_data.map (fun kv =>
        (⟨kv.1, kv.2.distance, kv.2.factor,
          kv.2.distance * kv.2.factor / 1000⟩ : Sheet6Row))).map
        (fun r => (r.label, r.distance))) =
        store.s6_data.map (fun kv => (kv.1, kv.2.distance)) := by
      rw [List.map_map]
      rfl
    simp only [importExcel]
    rw [hrows]
    exact updRows_lookupKey dispKey updDistS6 (fun _ _ _ => rfl) _ _ k v u hv hm
  · intro k v u hv hm
    have hrows : ((store.s7_electricity.map (fun kv =>
        (⟨kv.1, kv.2, kv.2 * 0.474 / 1000⟩ : MonthRow))).map
        (fun r => (r.month, r.usage))) = store.s7_electricity := by
      rw [List.map_map]
      exact List.map_id store.s7_electricity
    simp only [importExcel]
    rw [hrows]
    exact updRows_lookupKey dispKey updVal (fun _ _ _ => rfl) _ _ k v u hv hm
  · intro k v u hv hm
    have hrows : ((store.s7_water.map (fun kv =>
        (⟨kv.1, kv.2, kv.2 * wf / 1000⟩ : MonthRow))).map
        (fun r => (r.month, r.usage))) = store.s7_water := by
      rw [List.map_map]
      exact List.map_id store.s7_water
    simp only [importExcel]
    rw [hrows]
    exact updRows_lookupKey dispKey updVal (fun _ _ _ => rfl) _ _ k v u hv hm

/-- Witness for C2: the default store's export imported back into the
default store, and into a distinct store with zeroed usages — one line
item of every category has its default usage/distance restored there —
plus the frame parts on the empty workbook. -/
theorem claim_C2_wit :
    importExcel ((to_excel defaultStore).getD emptyFile) defaultStore =
      defaultStore ∧
    keysOf (importExcel emptyFile altStore) = keysOf altStore ∧
    coeffsOf (importExcel emptyFile altStore) = coeffsOf altStore ∧
    lookupKey "燃料油"
        ((importExcel ((to_excel defaultStore).getD emptyFile)
          altStore).s1_data) =
      some (updUsageS1 100 ⟨0, "公升/年", 0.002567⟩) ∧
    lookupKey "車用汽油"
        ((importExcel ((to_excel defaultStore).getD emptyFile)
          altStore).s2_data) =
      some (updUsageS2 100 ⟨none, 0, "公升/年", 0.002298⟩) ∧
    lookupKey "平日日間使用學生"
        ((importExcel ((to_excel defaultStore).getD emptyFile)
          altStore).s3_data) =
      some (updUsageS3 100 ⟨0, 0.0021⟩) ∧
    lookupKey "FM-200"
        ((importExcel ((to_excel defaultStore).getD emptyFile)
          altStore).s4_data) =
      some (updUsageS4 1 ⟨0, some 3350, none⟩) ∧
    lookupKey "HFC-23/R-23"
        ((importExcel ((to_excel defaultStore).getD emptyFile)
          altStore).s5_data) =
      some (updUsageS5 0.5 ⟨0, 12400⟩) ∧
    lookupKey "汽車-汽油"
        ((importExcel ((to_excel defaultStore).getD emptyFile)
          altStore).s6_data) =
      some (updDistS6 100 ⟨0, 0.104⟩) ∧
    lookupKey "一月"
        ((importExcel ((to_excel defaultStore).getD emptyFile)
          altStore).s7_electricity) = some (updVal 10000 0) ∧
    lookupKey "一月"
        ((importExcel ((to_excel defaultStore).getD emptyFile)
          altStore).s7_water) = some (updVal 100 0) := by
  have h := claim_C2 defaultStore 0.1872
    ((to_excel defaultStore).getD emptyFile) emptyFile altStore rfl rfl rfl
    rfl rfl rfl rfl rfl rfl (Or.inl rfl) rfl
  exact ⟨h.1, h.2.1, h.2.2.1,
    h.2.2.2.1 "燃料油" ⟨0, "公升/年", 0.002567⟩ 100 rfl rfl,
    h.2.2.2.2.1 "車用汽油" ⟨none, 0, "公升/年", 0.002298⟩ 100 rfl rfl,
    h.2.2.2.2.2.1 "平日日間使用學生" ⟨0, 0.0021⟩ 100 rfl rfl rfl,
    h.2.2.2.2.2.2.1 "FM-200" ⟨0, some 3350, none⟩ 1 rfl rfl,
    h.2.2.2.2.2.2.2.1 "HFC-23/R-23" ⟨0, 12400⟩ 0.5 rfl rfl,
    h.2.2.2.2.2.2.2.2.1 "汽車-汽油" ⟨0, 0.104⟩ 100 rfl rfl,
    h.2.2.2.2.2.2.2.2.2.1 "一月" 0 10000 rfl rfl,
    h.2.2.2.2.2.2.2.2.2.2 "一月" 0 100 rfl rfl⟩

/-- Lookup distributes over list append. -/
theorem lookupKey_append {α : Type} (k : String) (xs ys : List (String × α)) :
    lookupKey k (xs ++ ys) =
      (lookupKey k xs).orElse (fun _ => lookupKey k ys) := by
  induction xs with
  | nil =>
    show lookupKey k ys = Option.orElse none (fun _ => lookupKey k ys)
    cases lookupKey k ys <;> rfl
  | cons x xs ih =>
    by_cases hx : x.1 = k
    · simp [lookupKey, hx, Option.orElse]
    · simp [lookupKey, hx, ih]

/-- `hasKey` distributes over list append. -/
theorem hasKey_append (k : String) (xs ys : Session) :
    hasKey k (xs ++ ys) = (hasKey k xs || hasKey k ys) := by
  simp [hasKey, List.any_append]

/-- A key is present exactly when its lookup succeeds. -/
theorem hasKey_eq_isSome (k : String) (ss : Session) :
    hasKey k ss = (lookupKey k ss).isSome := by
  induction ss with
  | nil => rfl
  | cons x xs ih =>
    by_cases hx : x.1 = k
    · simp [hasKey, lookupKey, hx]
    · simp only [hasKey, List.any_cons, lookupKey, if_neg hx] at ih ⊢
      simp [hx, ih]

/-- Inserting under a key makes it present. -/
theorem hasKey_insertIfAbsent_self (k : String) (v : SVal) (ss : Session) :
    hasKey k (insertIfAbsent k v ss) = true := by
  unfold insertIfAbsent
  split
  · assumption
  · simp [hasKey_append, hasKey]

/-- Insert-if-absent keeps every present key present. -/
theorem hasKey_insertIfAbsent_of (k k' : String) (v : SVal) (ss : Session)
    (h : hasKey k ss = true) :
    hasKey k (insertIfAbsent k' v ss) = true := by
  unfold insertIfAbsent
  split
  · exact h
  · simp [hasKey_append, h]

/-- Running a default list keeps every present key present. -/
theorem hasKey_initList_of_hasKey (kvs : List (String × SVal)) (ss : Session)
    (k : String) (h : hasKey k ss = true) :
    hasKey k (initList kvs ss) = true := by
  induction kvs generalizing ss with
  | nil => exact h
  | cons kv kvs ih => exact ih _ (hasKey_insertIfAbsent_of _ _ _ _ h)

/-- Running a default list makes every listed key present. -/
theorem hasKey_initList_of_mem (kvs : List (String × SVal)) (ss : Session)
    (k : String) (h : k ∈ kvs.map Prod.fst) :
    hasKey k (initList kvs ss) = true := by
  induction kvs generalizing ss with
  | nil => simp at h
  | cons kv kvs ih =>
    rw [List.map_cons, List.mem_cons] at h
    cases h with
    | inl he =>
      subst he
      exact hasKey_initList_of_hasKey kvs _ _ (hasKey_insertIfAbsent_self _ _ _)
    | inr hm => exact ih _ hm

/-- A default list whose keys are all already present does nothing. -/
theorem initList_of_all_hasKey (kvs : List (String × SVal)) (ss : Session)
    (h : ∀ kv ∈ kvs, hasKey kv.1 ss = true) :
    initList kvs ss = ss := by
  induction kvs with
  | nil => rfl
  | cons kv kvs ih =>
    have h1 : insertIfAbsent kv.1 kv.2 ss = ss := by
      unfold insertIfAbsent
      rw [if_pos (h kv (by simp))]
    show initList kvs (insertIfAbsent kv.1 kv.2 ss) = ss
    rw [h1]
    exact ih (fun kv' hkv' => h kv' (by simp [hkv']))

/-- Running the same default list twice is the same as running it once. -/
theorem initList_idem (kvs : List (String × SVal)) (ss : Session) :
    initList kvs (initList kvs ss) = initList kvs ss :=
  initList_of_all_hasKey _ _ (fun _kv hkv =>
    hasKey_initList_of_mem _ _ _ (List.mem_map_of_mem _ hkv))

/-- What a lookup sees after running a default list: the old value if the
key was present, otherwise the first default for that key. -/
theorem lookupKey_initList (kvs : List (String × SVal)) (ss : Session)
    (k : String) :
    lookupKey k (initList kvs ss) =
      (lookupKey k ss).orElse (fun _ => lookupKey k kvs) := by
  induction kvs generalizing ss with
  | nil =>
    show lookupKey k ss = Option.orElse (lookupKey k ss) (fun _ => none)
    cases lookupKey k ss <;> rfl
  | cons kv kvs ih =>
    show lookupKey k (initList kvs (insertIfAbsent kv.1 kv.2 ss)) = _
    rw [ih]
    unfold insertIfAbsent
    split
    · rename_i hpres
      cases hl : lookupKey k ss with
      | some w => rfl
      | none =>
        have hne : kv.1 ≠ k := by
          intro he
          rw [hasKey_eq_isSome, he, hl] at hpres
          exact absurd hpres (by simp)
        show lookupKey k kvs = if kv.1 = k then some kv.2 else lookupKey k kvs
        rw [if_neg hne]
    · rw [lookupKey_append]
      cases hl : lookupKey k ss with
      | some w => rfl
      | none =>
        show Option.orElse (if kv.1 = k then some kv.2 else none)
            (fun _ => lookupKey k kvs) =
          if kv.1 = k then some kv.2 else lookupKey k kvs
        by_cases hk : kv.1 = k
        · rw [if_pos hk, if_pos hk]; rfl
        · rw [if_neg hk, if_neg hk]; rfl

/-- Replacing the value under one key leaves other keys' lookups alone. -/
theorem lookupKey_replace_ne (k k' : String) (v : SVal) (ss : Session)
    (h : k ≠ k') :
    lookupKey k (ss.map (fun kv => if kv.1 = k' then (k', v) else kv)) =
      lookupKey k ss := by
  induction ss with
  | nil => rfl
  | cons x xs ih =>
    by_cases hx : x.1 = k'
    · have hxk : ¬(x.1 = k) := by rw [hx]; exact fun he => h he.symm
      simp only [List.map_cons, if_pos hx, lookupKey, if_neg hxk,
        if_neg (fun he : k' = k => h he.symm)]
      exact ih
    · simp only [List.map_cons, if_neg hx, lookupKey]
      split
      · rfl
      · exact ih

/-- Setting one key leaves every other key's lookup unchanged. -/
theorem lookupKey_setKey_ne (k k' : String) (v : SVal) (ss : Session)
    (h : k ≠ k') :
    lookupKey k (setKey k' v ss) = lookupKey k ss := by
  unfold setKey
  split
  · exact lookupKey_replace_ne k k' v ss h
  · rw [lookupKey_append]
    cases hl : lookupKey k ss with
    | some w => rfl
    | none =>
      show (if k' = k then some v else none) = none
      rw [if_neg (fun he : k' = k => h he.symm)]

/-- No key of the other version is one of the three totals keys
`calculate_totals(prefix)` writes. -/
theorem verKeys_other_ne_calc (p : Ver) :
    ∀ k ∈ verKeys p.other, k ≠ "totals_" ++ p.str ∧
      k ≠ "scope_totals_" ++ p.str ∧ k ≠ "emission_breakdown_" ++ p.str := by
  cases p <;> decide

/-- No key of the other version coincides with any version-scoped key of
this version. -/
theorem verKeys_other_ne_base (p : Ver) :
    ∀ base ∈ verBases, ∀ k ∈ verKeys p.other, k ≠ base ++ p.str := by
  cases p <;> decide

/-- A version-scoped stem with this version's suffix is a key of this
version. -/
theorem mem_verKeys (base : String) (p : Ver) (hb : base ∈ verBases) :
    base ++ p.str ∈ verKeys p :=
  List.mem_map_of_mem _ hb

/-- `readStore` from explicitly given session entries. -/
theorem readStore_eq (p : Ver) (ss : Session)
    (m1 : List (String × S1Record)) (m2 : List (String × S2Record))
    (flag : String) (m3 : List (String × S3Record))
    (m4 : List (String × S4Record)) (m5 : List (String × S5Record))
    (m6 : List (String × S6Record)) (m7e : List (String × ℚ))
    (m7w : List (String × ℚ)) (src : String) (wfs : List (String × ℚ))
    (h1 : lookupKey ("s1_data_" ++ p.str) ss = some (.s1m m1))
    (h2 : lookupKey ("s2_data_" ++ p.str) ss = some (.s2m m2))
    (h3 : lookupKey ("s3_septic_system_" ++ p.str) ss = some (.strV flag))
    (h4 : lookupKey ("s3_data_" ++ p.str) ss = some (.s3m m3))
    (h5 : lookupKey ("s4_data_" ++ p.str) ss = some (.s4m m4))
    (h6 : lookupKey ("s5_data_" ++ p.str) ss = some (.s5m m5))
    (h7 : lookupKey ("s6_data_" ++ p.str) ss = some (.s6m m6))
    (h8 : lookupKey ("s7_electricity_" ++ p.str) ss = some (.nmap m7e))
    (h9 : lookupKey ("s7_water_" ++ p.str) ss = some (.nmap m7w))
    (h10 : lookupKey ("s7_water_source_" ++ p.str) ss = some (.strV src))
    (h11 : lookupKey ("water_factors_" ++ p.str) ss = some (.nmap wfs)) :
    readStore p ss = some ⟨m1, m2, flag, m3, m4, m5, m6, m7e, m7w, src, wfs⟩ := by
  unfold readStore
  rw [h1, h2, h3, h4, h5, h6, h7, h8, h9, h10, h11]
  rfl

/-- C6: operations scoped to one methodology version leave the other
version's session entries untouched: computing totals writes only its own
prefix's keys, a form edit to a version-scoped key never changes the
other version's keys, and exporting reads only its own prefix's keys. -/
theorem claim_C6 :
    (∀ (p : Ver) (ss ss' : Session), calculate_totals_session p ss = some ss' →
      ∀ k ∈ verKeys p.other, lookupKey k ss' = lookupKey k ss) ∧
    (∀ (p : Ver) (base : String) (v : SVal) (ss : Session), base ∈ verBases →
      ∀ k ∈ verKeys p.other,
        lookupKey k (writeVerData p base v ss) = lookupKey k ss) ∧
    (∀ (p : Ver) (ss1 ss2 : Session),
      (∀ k ∈ verKeys p, lookupKey k ss1 = lookupKey k ss2) →
      to_excel_session p ss1 = to_excel_session p ss2) := by
  refine ⟨?_, ?_, ?_⟩
  · intro p ss ss' h k hk
    unfold calculate_totals_session at h
    cases hrs : readStore p ss with
    | none => simp only [hrs] at h; exact absurd h (by simp)
    | some store =>
      simp only [hrs] at h
      cases hct : calculate_totals store with
      | none => simp only [hct] at h; exact absurd h (by simp)
      | some r =>
        simp only [hct, Option.some.injEq] at h
        subst h
        obtain ⟨h1, h2, h3⟩ := verKeys_other_ne_calc p k hk
        rw [lookupKey_setKey_ne _ _ _ _ h3, lookupKey_setKey_ne _ _ _ _ h2,
          lookupKey_setKey_ne _ _ _ _ h1]
  · intro p base v ss hb k hk
    exact lookupKey_setKey_ne _ _ _ _ (verKeys_other_ne_base p base hb k hk)
  · intro p ss1 ss2 h
    have e1 := h ("s1_data_" ++ p.str) (mem_verKeys _ p (by decide))
    have e2 := h ("s2_data_" ++ p.str) (mem_verKeys _ p (by decide))
    have e3 := h ("s3_septic_system_" ++ p.str) (mem_verKeys _ p (by decide))
    have e4 := h ("s3_data_" ++ p.str) (mem_verKeys _ p (by decide))
    have e5 := h ("s4_data_" ++ p.str) (mem_verKeys _ p (by decide))
    have e6 := h ("s5_data_" ++ p.str) (mem_verKeys _ p (by decide))
    have e7 := h ("s6_data_" ++ p.str) (mem_verKeys _ p (by decide))
    have e8 := h ("s7_electricity_" ++ p.str) (mem_verKeys _ p (by decide))
    have e9 := h ("s7_water_" ++ p.str) (mem_verKeys _ p (by decide))
    have e10 := h ("s7_water_source_" ++ p.str) (mem_verKeys _ p (by decide))
    have e11 := h ("water_factors_" ++ p.str) (mem_verKeys _ p (by decide))
    unfold to_excel_session readStore
    rw [e1, e2, e3, e4, e5, e6, e7, e8, e9, e10, e11]

/-- Witness for C6: on the freshly initialized session, computing the AR5
totals and editing AR5 data leave the AR6 store entry untouched. -/
theorem claim_C6_wit :
    lookupKey "s1_data_ar6" sessionAfterCalc =
      lookupKey "s1_data_ar6" sessionAfterInit ∧
    lookupKey "s1_data_ar6"
        (writeVerData .ar5 "s1_data_" (SVal.s1m []) sessionAfterInit) =
      lookupKey "s1_data_ar6" sessionAfterInit ∧
    to_excel_session .ar5 sessionAfterInit =
      to_excel_session .ar5 sessionAfterInit :=
  ⟨claim_C6.1 .ar5 sessionAfterInit sessionAfterCalc rfl "s1_data_ar6"
     (by decide),
   claim_C6.2.1 .ar5 "s1_data_" (SVal.s1m []) sessionAfterInit (by decide)
     "s1_data_ar6" (by decide),
   claim_C6.2.2 .ar5 sessionAfterInit sessionAfterInit (fun k _ => rfl)⟩

/-- C7 counterexample: initialization inserts whole per-category
collections, not individual line items — starting from a session whose
AR5 stationary collection exists but is empty, initialization inserts
nothing, so the catalog line-item key 燃料油 still has no activity record
afterwards, contradicting per-key insert-if-absent / completeness. -/
theorem claim_C7_cex :
    "燃料油" ∈ s1Default.map Prod.fst ∧
    getS1Record
      (get_ar_initial_data 2025 .ar5 [("s1_data_ar5", SVal.s1m [])])
      .ar5 "燃料油" = none :=
  ⟨by decide, rfl⟩

/-- C7 (amended): initialization is insert-only-if-absent at the
granularity of whole session entries — for every session, any existing
entry (hence every existing record) is never overwritten and running
initialization a second time changes nothing; a key absent beforehand
receives its catalog default, so from a session lacking the category
collections the initialized store is exactly the full default store, in
which every catalog line-item key has a record. -/
theorem claim_C7 (y : ℤ) (p : Ver) (ss : Session) :
    (∀ k v, lookupKey k ss = some v →
      lookupKey k (get_ar_initial_data y p ss) = some v) ∧
    (∀ k', lookupKey k' ss = none →
      lookupKey k' (get_ar_initial_data y p ss) =
        lookupKey k' (arDefaults y p)) ∧
    ((∀ kv ∈ arDefaults y p, lookupKey kv.1 ss = none) →
      readStore p (get_ar_initial_data y p ss) = some defaultStore) ∧
    get_ar_initial_data y p (get_ar_initial_data y p ss) =
      get_ar_initial_data y p ss ∧
    initialize_state y (initialize_state y ss) = initialize_state y ss := by
  refine ⟨?_, ?_, ?_, ?_, ?_⟩
  · intro k v hv
    show lookupKey k (initList (arDefaults y p) ss) = some v
    rw [lookupKey_initList, hv]
    rfl
  · intro k' hk'
    show lookupKey k' (initList (arDefaults y p) ss) = _
    rw [lookupKey_initList, hk']
    rfl
  · intro habs
    have hgen : ∀ kname ∈ (arDefaults y p).map Prod.fst,
        lookupKey kname (get_ar_initial_data y p ss) =
          lookupKey kname (arDefaults y p) := by
      intro kname hkn
      obtain ⟨kv, hkv, hfst⟩ := List.mem_map.mp hkn
      subst hfst
      show lookupKey kv.1 (initList (arDefaults y p) ss) = _
      rw [lookupKey_initList, habs kv hkv]
      rfl
    cases p with
    | ar5 =>
      refine readStore_eq .ar5 _ s1Default s2Default septicYes s3Default
        s4Default s5Default s6Default s7ElecDefault s7WaterDefault
        waterSourceDefault waterFactorsDefault ?_ ?_ ?_ ?_ ?_ ?_ ?_ ?_ ?_ ?_ ?_
      · rw [hgen ("s1_data_" ++ Ver.ar5.str) (by simp [arDefaults])]; rfl
      · rw [hgen ("s2_data_" ++ Ver.ar5.str) (by simp [arDefaults])]; rfl
      · rw [hgen ("s3_septic_system_" ++ Ver.ar5.str) (by simp [arDefaults])]; rfl
      · rw [hgen ("s3_data_" ++ Ver.ar5.str) (by simp [arDefaults])]; rfl
      · rw [hgen ("s4_data_" ++ Ver.ar5.str) (by simp [arDefaults])]; rfl
      · rw [hgen ("s5_data_" ++ Ver.ar5.str) (by simp [arDefaults])]; rfl
      · rw [hgen ("s6_data_" ++ Ver.ar5.str) (by simp [arDefaults])]; rfl
      · rw [hgen ("s7_electricity_" ++ Ver.ar5.str) (by simp [arDefaults])]; rfl
      · rw [hgen ("s7_water_" ++ Ver.ar5.str) (by simp [arDefaults])]; rfl
      · rw [hgen ("s7_water_source_" ++ Ver.ar5.str) (by simp [arDefaults])]; rfl
      · rw [hgen ("water_factors_" ++ Ver.ar5.str) (by simp [arDefaults])]; rfl
    | ar6 =>
      refine readStore_eq .ar6 _ s1Default s2Default septicYes s3Default
        s4Default s5Default s6Default s7ElecDefault s7WaterDefault
        waterSourceDefault waterFactorsDefault ?_ ?_ ?_ ?_ ?_ ?_ ?_ ?_ ?_ ?_ ?_
      · rw [hgen ("s1_data_" ++ Ver.ar6.str) (by simp [arDefaults])]; rfl
      · rw [hgen ("s2_data_" ++ Ver.ar6.str) (by simp [arDefaults])]; rfl
      · rw [hgen ("s3_septic_system_" ++ Ver.ar6.str) (by simp [arDefaults])]; rfl
      · rw [hgen ("s3_data_" ++ Ver.ar6.str) (by simp [arDefaults])]; rfl
      · rw [hgen ("s4_data_" ++ Ver.ar6.str) (by simp [arDefaults])]; rfl
      · rw [hgen ("s5_data_" ++ Ver.ar6.str) (by simp [arDefaults])]; rfl
      · rw [hgen ("s6_data_" ++ Ver.ar6.str) (by simp [arDefaults])]; rfl
      · rw [hgen ("s7_electricity_" ++ Ver.ar6.str) (by simp [arDefaults])]; rfl
      · rw [hgen ("s7_water_" ++ Ver.ar6.str) (by simp [arDefaults])]; rfl
      · rw [hgen ("s7_water_source_" ++ Ver.ar6.str) (by simp [arDefaults])]; rfl
      · rw [hgen ("water_factors_" ++ Ver.ar6.str) (by simp [arDefaults])]; rfl
  · show initList (arDefaults y p) (initList (arDefaults y p) ss) =
      initList (arDefaults y p) ss
    exact initList_idem _ _
  · have hp : ∀ kv ∈ ([("page", SVal.strV "AR5")] : List (String × SVal)),
        hasKey kv.1 (initialize_state y ss) = true := by
      intro kv hkv
      exact hasKey_initList_of_hasKey _ _ _ (hasKey_initList_of_hasKey _ _ _
        (hasKey_initList_of_hasKey _ _ _
          (hasKey_initList_of_mem _ _ _ (List.mem_map_of_mem _ hkv))))
    have h5 : ∀ kv ∈ arDefaults y .ar5,
        hasKey kv.1 (initialize_state y ss) = true := by
      intro kv hkv
      exact hasKey_initList_of_hasKey _ _ _ (hasKey_initList_of_hasKey _ _ _
        (hasKey_initList_of_mem _ _ _ (List.mem_map_of_mem _ hkv)))
    have h6 : ∀ kv ∈ arDefaults y .ar6,
        hasKey kv.1 (initialize_state y ss) = true := by
      intro kv hkv
      exact hasKey_initList_of_hasKey _ _ _
        (hasKey_initList_of_mem _ _ _ (List.mem_map_of_mem _ hkv))
    have hc : ∀ kv ∈ campusDefaults y,
        hasKey kv.1 (initialize_state y ss) = true := by
      intro kv hkv
      exact hasKey_initList_of_mem _ _ _ (List.mem_map_of_mem _ hkv)
    show get_campus_initial_data y (get_ar_initial_data y .ar6
        (get_ar_initial_data y .ar5
          (initList [("page", SVal.strV "AR5")] (initialize_state y ss)))) =
      initialize_state y ss
    rw [initList_of_all_hasKey _ _ hp]
    show get_campus_initial_data y (get_ar_initial_data y .ar6
        (initList (arDefaults y .ar5) (initialize_state y ss))) =
      initialize_state y ss
    rw [initList_of_all_hasKey _ _ h5]
    show get_campus_initial_data y
        (initList (arDefaults y .ar6) (initialize_state y ss)) =
      initialize_state y ss
    rw [initList_of_all_hasKey _ _ h6]
    show initList (campusDefaults y) (initialize_state y ss) =
      initialize_state y ss
    rw [initList_of_all_hasKey _ _ hc]

/-- Witness for C7: a session already holding an (empty) AR5 stationary
collection keeps that entry verbatim through initialization and a second
run changes nothing; a session holding only an unrelated key reads back
the full default store. -/
theorem claim_C7_wit :
    lookupKey "s1_data_ar5"
        (get_ar_initial_data 2025 .ar5 [("s1_data_ar5", SVal.s1m [])]) =
      some (SVal.s1m []) ∧
    lookupKey "s2_data_ar5"
        (get_ar_initial_data 2025 .ar5 [("s1_data_ar5", SVal.s1m [])]) =
      lookupKey "s2_data_ar5" (arDefaults 2025 .ar5) ∧
    readStore .ar5
        (get_ar_initial_data 2025 .ar5 [("extra_key", SVal.boolV true)]) =
      some defaultStore ∧
    get_ar_initial_data 2025 .ar5
        (get_ar_initial_data 2025 .ar5 [("s1_data_ar5", SVal.s1m [])]) =
      get_ar_initial_data 2025 .ar5 [("s1_data_ar5", SVal.s1m [])] ∧
    initialize_state 2025
        (initialize_state 2025 [("s1_data_ar5", SVal.s1m [])]) =
      initialize_state 2025 [("s1_data_ar5", SVal.s1m [])] :=
  ⟨(claim_C7 2025 .ar5 [("s1_data_ar5", SVal.s1m [])]).1 "s1_data_ar5"
     (SVal.s1m []) rfl,
   (claim_C7 2025 .ar5 [("s1_data_ar5", SVal.s1m [])]).2.1 "s2_data_ar5" rfl,
   (claim_C7 2025 .ar5 [("extra_key", SVal.boolV true)]).2.2.1 (by decide),
   (claim_C7 2025 .ar5 [("s1_data_ar5", SVal.s1m [])]).2.2.2.1,
   (claim_C7 2025 .ar5 [("s1_data_ar5", SVal.s1m [])]).2.2.2.2⟩

/-- A lookup in the fully initialized session, expressed through the four
default lists in initialization order. -/
theorem lookupKey_initialize_state (y : ℤ) (ss : Session) (k : String) :
    lookupKey k (initialize_state y ss) =
      ((((lookupKey k ss).orElse
          (fun _ => lookupKey k [("page", SVal.strV "AR5")])).orElse
        (fun _ => lookupKey k (arDefaults y .ar5))).orElse
          (fun _ => lookupKey k (arDefaults y .ar6))).orElse
        (fun _ => lookupKey k (campusDefaults y)) := by
  show lookupKey k (initList (campusDefaults y)
      (initList (arDefaults y .ar6) (initList (arDefaults y .ar5)
        (initList [("page", SVal.strV "AR5")] ss)))) = _
  rw [lookupKey_initList, lookupKey_initList, lookupKey_initList,
    lookupKey_initList]

/-- C10: the two methodology versions share every coefficient — the
per-version default data are the same values under differently prefixed
keys, the electricity factor and CH4 GWP are single hardcoded constants,
a freshly initialized session reads back the identical default store for
both versions, and on identical activity inputs the AR5 and AR6
computations produce identical totals. -/
theorem claim_C10 (y : ℤ) (ss : Session)
    (h : readStore .ar5 ss = readStore .ar6 ss) :
    (readStore .ar5 ss).bind calculate_totals =
      (readStore .ar6 ss).bind calculate_totals ∧
    (arDefaults y .ar5).map Prod.snd = (arDefaults y .ar6).map Prod.snd ∧
    readStore .ar5 (initialize_state y []) = some defaultStore ∧
    readStore .ar6 (initialize_state y []) = some defaultStore ∧
    elec_factor = 0.474 ∧ gwp_ch4 = 28 := by
  refine ⟨by rw [h], rfl, ?_, ?_, rfl, rfl⟩
  · refine readStore_eq .ar5 _ s1Default s2Default septicYes s3Default
      s4Default s5Default s6Default s7ElecDefault s7WaterDefault
      waterSourceDefault waterFactorsDefault ?_ ?_ ?_ ?_ ?_ ?_ ?_ ?_ ?_ ?_ ?_ <;>
      (rw [lookupKey_initialize_state]; rfl)
  · refine readStore_eq .ar6 _ s1Default s2Default septicYes s3Default
      s4Default s5Default s6Default s7ElecDefault s7WaterDefault
      waterSourceDefault waterFactorsDefault ?_ ?_ ?_ ?_ ?_ ?_ ?_ ?_ ?_ ?_ ?_ <;>
      (rw [lookupKey_initialize_state]; rfl)

/-- Witness for C10 on the freshly initialized session. -/
theorem claim_C10_wit :
    (readStore .ar5 sessionAfterInit).bind calculate_totals =
      (readStore .ar6 sessionAfterInit).bind calculate_totals ∧
    (arDefaults 2025 .ar5).map Prod.snd = (arDefaults 2025 .ar6).map Prod.snd ∧
    readStore .ar5 (initialize_state 2025 []) = some defaultStore ∧
    readStore .ar6 (initialize_state 2025 []) = some defaultStore ∧
    elec_factor = 0.474 ∧ gwp_ch4 = 28 :=
  claim_C10 2025 sessionAfterInit rfl
